import Mathlib

/-!
Verification development for the `light` compiler front end.

The lexer (`src/crates/lex/src/lib.rs`), the type checker
(`src/crates/tych/src/lib.rs`) and the symbol data model
(`src/crates/common/src/symbol_table/symbol.rs`) are embedded shallowly.
Machine integers (`usize`) are modelled as `Nat` with explicit wrap-around
modulo `2 ^ 64`; a sticky flag records any subtraction underflow (which in a
Rust debug build is a panic).  Fallible code returns `Except`; Rust panics
(`unreachable!` / `Option::unwrap` on `None`) are a distinguished error
constructor, separate from ordinary `Err` values.  All recursive interpreters
take explicit fuel, decremented on every call; running out of fuel is a third
distinguished outcome, so any `ok` result is fuel-independent.
-/

namespace Light

/-! ## usize arithmetic (wrap-around model of Rust release semantics) -/

def USIZE : Nat := 2 ^ 64

/-- Wrapping `usize` addition. -/
def uadd (a b : Nat) : Nat := (a + b) % USIZE

/-- Wrapping `usize` subtraction.  `a - b` in Rust underflows when `b > a`:
debug builds panic, release builds wrap; the wrap result is modelled here and
the underflow event is recorded separately by the stream state. -/
def usub (a b : Nat) : Nat := (a + USIZE - b % USIZE) % USIZE

/-! ## Operators (src/crates/common/src/lib.rs, enum Operator) -/

inductive Op where
  | add | addEq | and | assign | bitAnd | bitOr | bitXor | dec | div | divEq
  | eq | gt | gtEq | inc | lt | ltEq | mul | mulEq | not | notEq | or | pow
  | retType | sub | subEq
deriving DecidableEq, Repr

/-! ## Tokens (src/crates/lex/src/token.rs is not under src/; the variant
list is modelled from the spec, section 3 "Token", and from the uses in
`Lex::lex` and `Lex::should_add_semicolon`). -/

inductive TokenType where
  | fnKw | letKw | forKw | ifKw | elseKw | externKw | structKw | moduleKw
  | bool (b : Bool)
  | ident (s : String)
  | num (s : String)
  | char (s : String)
  | op (o : Op)
  | openBrace | closeBrace | openBracket | closeBracket | openParen | closeParen
  | colon | comma | dot
  | semicolon (synthetic : Bool)
  | eof
deriving DecidableEq, Repr

structure Token where
  tt : TokenType
  line : Nat
  column : Nat
deriving DecidableEq, Repr

/-- Modelled from the spec: `Token::default()` is only reached in `Lex::lex`
when a synthetic semicolon is requested with no previous token, a situation
`should_add_semicolon` rules out; the concrete value is irrelevant (dead
branch, proved unreachable below). -/
def Token.default : Token := ⟨TokenType.eof, 0, 0⟩

def Token.isEof (t : Token) : Bool := t.tt = TokenType.eof

/-! ## Character stream (src/crates/lex/src/lib.rs, `ContextElement`,
`StreamIter`).  `StreamIter.underflow` is a model-only sticky flag recording
that a `usize` subtraction underflowed. -/

structure CtxElem where
  value : Char
  line : Nat
  column : Nat
deriving DecidableEq, Repr

/-- `ContextElement::new` adds 1 to both coordinates (1-based positions). -/
def CtxElem.new (value : Char) (line column : Nat) : CtxElem :=
  ⟨value, uadd line 1, uadd column 1⟩

/-- Will cause lexing to stop if there is a null byte in the file. -/
def CtxElem.isEof (c : CtxElem) : Bool := c.value = Char.ofNat 0

/-- `str::split_inclusive('\n')`: chunks end just after each newline, the
trailing chunk (without newline) is kept, the empty string yields no chunks. -/
def splitInclusiveAux : List Char → List Char → List (List Char)
  | [], acc => if acc.isEmpty then [] else [acc.reverse]
  | c :: rest, acc =>
    if c = '\n' then (c :: acc).reverse :: splitInclusiveAux rest []
    else splitInclusiveAux rest (c :: acc)

def splitInclusive (cs : List Char) : List (List Char) := splitInclusiveAux cs []

structure StreamIter where
  lines : List (List Char)
  line : Nat
  column : Nat
  underflow : Bool
deriving DecidableEq, Repr

def StreamIter.new (input : String) : StreamIter :=
  ⟨splitInclusive input.data, 0, 0, false⟩

/-- `<StreamIter as Iterator>::next` (src/crates/lex/src/lib.rs:352-368).
Always yields an element; NUL is the EOF sentinel.  The first `None` arm
computes `self.column - 1`, which underflows when `column = 0`. -/
def StreamIter.next (s : StreamIter) : CtxElem × StreamIter :=
  match s.lines.get? s.line with
  | none =>
    (CtxElem.new (Char.ofNat 0) s.line (usub s.column 1),
     { s with underflow := s.underflow || decide (s.column = 0) })
  | some ln =>
    match ln.get? s.column with
    | some c => (CtxElem.new c s.line s.column, { s with column := s.column + 1 })
    | none =>
      -- or_else: line += 1, column = 0, retry, then column += 1 in all cases
      let line' := s.line + 1
      match s.lines.get? line' with
      | some ln2 =>
        match ln2.get? 0 with
        | some c =>
          (CtxElem.new c line' 0, { s with line := line', column := 1 })
        | none =>
          (CtxElem.new (Char.ofNat 0) line' (usub 1 1),
           { s with line := line', column := 1 })
      | none =>
        (CtxElem.new (Char.ofNat 0) line' (usub 1 1),
         { s with line := line', column := 1 })

/-- `Peekable<StreamIter>`: a one-element lookahead buffer. -/
structure PStream where
  iter : StreamIter
  peeked : Option CtxElem
deriving DecidableEq, Repr

def PStream.next (s : PStream) : CtxElem × PStream :=
  match s.peeked with
  | some c => (c, { s with peeked := none })
  | none =>
    let (c, it) := s.iter.next
    (c, { iter := it, peeked := none })

def PStream.peek (s : PStream) : CtxElem × PStream :=
  match s.peeked with
  | some c => (c, s)
  | none =>
    let (c, it) := s.iter.next
    (c, { iter := it, peeked := some c })

/-! ## The lexer (src/crates/lex/src/lib.rs, `Lex`) -/

inductive LexErr where
  | lexError (message : String) (line column : Nat)
  | fuel
deriving DecidableEq, Repr

structure LexState where
  stream : PStream
  tokens : List Token
deriving DecidableEq, Repr

def Lex.new (input : String) : LexState :=
  ⟨⟨StreamIter.new input, none⟩, []⟩

/-- `Lex::should_add_semicolon` (src/crates/lex/src/lib.rs:280-299). -/
def shouldAddSemicolon (tokens : List Token) : Bool :=
  match tokens.getLast? with
  | some t =>
    match t.tt with
    | TokenType.bool _ => true
    | TokenType.char _ => true
    | TokenType.closeBrace => true
    | TokenType.closeParen => true
    | TokenType.closeBracket => true
    | TokenType.ident _ => true
    | TokenType.num _ => true
    | TokenType.op Op.inc => true
    | TokenType.op Op.dec => true
    | _ => false
  | none => false

def isAsciiWs (c : Char) : Bool :=
  c = ' ' || c = '\t' || c = '\n' || c = '\x0d' || c = '\x0c'

def isAsciiAlpha (c : Char) : Bool :=
  ('a' ≤ c && c ≤ 'z') || ('A' ≤ c && c ≤ 'Z')

def isAsciiDigit (c : Char) : Bool := '0' ≤ c && c ≤ '9'

def isAsciiAlnum (c : Char) : Bool := isAsciiAlpha c || isAsciiDigit c

/-- Identifier munching loop (src/crates/lex/src/lib.rs:86-94). -/
def munchIdent : Nat → PStream → String → Option (String × PStream)
  | 0, _, _ => none
  | f + 1, s, acc =>
    let (c, s') := s.peek
    if isAsciiAlnum c.value || c.value = '_' then
      let (_, s'') := s'.next
      munchIdent f s'' (acc.push c.value)
    else
      some (acc, s')

/-- Numeric-literal munching loop (src/crates/lex/src/lib.rs:115-123). -/
def munchNum : Nat → PStream → String → Option (String × PStream)
  | 0, _, _ => none
  | f + 1, s, acc =>
    let (c, s') := s.peek
    if isAsciiAlnum c.value || c.value = '.' then
      let (_, s'') := s'.next
      munchNum f s'' (acc.push c.value)
    else
      some (acc, s')

/-- Keyword table (src/crates/lex/src/lib.rs:96-108). -/
def keywordToken (s : String) : TokenType :=
  if s = "fn" then TokenType.fnKw
  else if s = "let" then TokenType.letKw
  else if s = "for" then TokenType.forKw
  else if s = "if" then TokenType.ifKw
  else if s = "else" then TokenType.elseKw
  else if s = "extern" then TokenType.externKw
  else if s = "true" then TokenType.bool true
  else if s = "false" then TokenType.bool false
  else if s = "struct" then TokenType.structKw
  else if s = "module" then TokenType.moduleKw
  else TokenType.ident s

/-- Char-literal lexing (src/crates/lex/src/lib.rs:129-183), entered after the
opening quote has been consumed.  Returns the token payload string. -/
def lexCharLit (cur : CtxElem) (s : PStream) : Except LexErr (String × PStream) :=
  let (next, s₁) := s.next
  if next.value = Char.ofNat 92 then
    -- control characters after a backslash
    let (esc, s₂) := s₁.next
    let ch :=
      if esc.value = 'n' then some ("\n")
      else if esc.value = 't' then some ("\t")
      else if esc.value = Char.ofNat 39 then some (String.singleton (Char.ofNat 39))
      else none
    match ch with
    | none =>
      Except.error (LexErr.lexError
        ("Invalid character control sequence: `\\" ++ String.singleton esc.value ++ "`")
        esc.line esc.column)
    | some ch =>
      let (last, s₃) := s₂.next
      if last.value = Char.ofNat 39 then Except.ok (ch, s₃)
      else if last.value = Char.ofNat 0 || last.value = '\n' then
        Except.error (LexErr.lexError
          ("Unterminated character literal. Expecting `'`") last.line last.column)
      else
        Except.error (LexErr.lexError
          ("Invalid character sequence: `'" ++ ch ++ String.singleton last.value ++ "'`")
          last.line last.column)
  else if next.value = Char.ofNat 0 then
    Except.error (LexErr.lexError
      ("Unterminated character literal. Expecting `'`, got `EOF`") cur.line cur.column)
  else if next.value = Char.ofNat 39 then
    Except.error (LexErr.lexError ("Character literal can't be empty") cur.line cur.column)
  else
    let ch := String.singleton next.value
    let (last, s₂) := s₁.next
    if last.value = Char.ofNat 39 then Except.ok (ch, s₂)
    else if last.value = Char.ofNat 0 || last.value = '\n' then
      Except.error (LexErr.lexError
        ("Unterminated character literal. Expecting `'`") last.line last.column)
    else
      Except.error (LexErr.lexError
        ("Invalid character sequence: `'" ++ ch ++ String.singleton last.value ++ "'`")
        last.line last.column)

/-- Two-character operator lookahead (src/crates/lex/src/lib.rs:186-246).
Returns `some` with the operator and the stream after consuming the second
character, `none` when no two-character operator applies. -/
def twoCharOp (c : Char) (n : Char) : Option Op :=
  if c = '=' && n = '=' then some Op.eq
  else if c = '!' && n = '=' then some Op.notEq
  else if c = '>' && n = '=' then some Op.gtEq
  else if c = '<' && n = '=' then some Op.ltEq
  else if c = '&' && n = '&' then some Op.and
  else if c = '|' && n = '|' then some Op.or
  else if c = '+' && n = '+' then some Op.inc
  else if c = '+' && n = '=' then some Op.addEq
  else if c = '-' && n = '-' then some Op.dec
  else if c = '-' && n = '=' then some Op.subEq
  else if c = '-' && n = '>' then some Op.retType
  else if c = '*' && n = '*' then some Op.pow
  else if c = '*' && n = '=' then some Op.mulEq
  else if c = '/' && n = '=' then some Op.divEq
  else none

/-- Single-character token map (src/crates/lex/src/lib.rs:249-274).
`none` means "unknown character" (a lexing error). -/
def oneCharToken (c : Char) : Option TokenType :=
  if c = '+' then some (TokenType.op Op.add)
  else if c = '-' then some (TokenType.op Op.sub)
  else if c = '*' then some (TokenType.op Op.mul)
  else if c = '/' then some (TokenType.op Op.div)
  else if c = '>' then some (TokenType.op Op.gt)
  else if c = '<' then some (TokenType.op Op.lt)
  else if c = '!' then some (TokenType.op Op.not)
  else if c = '=' then some (TokenType.op Op.assign)
  else if c = '&' then some (TokenType.op Op.bitAnd)
  else if c = '^' then some (TokenType.op Op.bitXor)
  else if c = '|' then some (TokenType.op Op.bitOr)
  else if c = '.' then some TokenType.dot
  else if c = Char.ofNat 125 then some TokenType.closeBrace
  else if c = ']' then some TokenType.closeBracket
  else if c = ')' then some TokenType.closeParen
  else if c = ':' then some TokenType.colon
  else if c = ',' then some TokenType.comma
  else if c = Char.ofNat 123 then some TokenType.openBrace
  else if c = '[' then some TokenType.openBracket
  else if c = '(' then some TokenType.openParen
  else if c = ';' then some (TokenType.semicolon false)
  else none

/-- The ordinary-token tail of `Lex::lex` (src/crates/lex/src/lib.rs:84-276):
identifiers and keywords, numeric literals, char literals, multi-character
operators and single-character tokens.  Touches only the character stream;
`pk`/`stPk` are the result of peeking past `cur`. -/
def lexOther (f : Nat) (cur : CtxElem) (stPk : PStream) (pk : CtxElem) :
    Except LexErr (Token × PStream) :=
  if isAsciiAlpha cur.value then
    match munchIdent f stPk (String.singleton cur.value) with
    | none => Except.error LexErr.fuel
    | some (identTxt, st') =>
      Except.ok (⟨keywordToken identTxt, cur.line, cur.column⟩, st')
  else if isAsciiDigit cur.value then
    match munchNum f stPk (String.singleton cur.value) with
    | none => Except.error LexErr.fuel
    | some (n, st') => Except.ok (⟨TokenType.num n, cur.line, cur.column⟩, st')
  else if cur.value = Char.ofNat 39 then
    match lexCharLit cur stPk with
    | Except.error e => Except.error e
    | Except.ok (ch, st') => Except.ok (⟨TokenType.char ch, cur.line, cur.column⟩, st')
  else
    match twoCharOp cur.value pk.value with
    | some o =>
      let (_, st2) := stPk.next
      Except.ok (⟨TokenType.op o, cur.line, cur.column⟩, st2)
    | none =>
      match oneCharToken cur.value with
      | some tt => Except.ok (⟨tt, cur.line, cur.column⟩, stPk)
      | none =>
        Except.error (LexErr.lexError
          ("Unknown character: " ++ String.singleton cur.value) cur.line cur.column)

mutual

/-- `Lex::lex` (src/crates/lex/src/lib.rs:36-277): produce one token. -/
def Lex.lex : Nat → LexState → Except LexErr (Token × LexState)
  | 0, _ => Except.error LexErr.fuel
  | f + 1, σ =>
    let (cur, st) := σ.stream.next
    let σ₁ : LexState := { σ with stream := st }
    -- synthetic semicolon at newline
    if cur.value = '\n' && shouldAddSemicolon σ₁.tokens then
      Except.ok (⟨TokenType.semicolon true, cur.line, cur.column⟩, σ₁)
    else if cur.isEof then
      -- synthetic semicolon at EOF is pushed directly onto the token list
      if shouldAddSemicolon σ₁.tokens then
        let semi :=
          match σ₁.tokens.getLast? with
          | some t => Token.mk (TokenType.semicolon true) t.line (t.column + 1)
          | none => Token.default
        Except.ok (⟨TokenType.eof, cur.line, cur.column⟩,
                   { σ₁ with tokens := σ₁.tokens ++ [semi] })
      else
        Except.ok (⟨TokenType.eof, cur.line, cur.column⟩, σ₁)
    else if isAsciiWs cur.value then
      Lex.wsSkip f σ₁
    else
      -- single-line comments
      let (pk, stPk) := σ₁.stream.peek
      if cur.value = '/' && pk.value = '/' then
        Lex.commentSkip f { σ₁ with stream := stPk }
      else
        match lexOther f cur stPk pk with
        | Except.error e => Except.error e
        | Except.ok (tok, st') => Except.ok (tok, { σ₁ with stream := st' })

/-- Whitespace-skipping loop inside `Lex::lex` (lines 60-70): consume
whitespace while peeking at it, then lex the next token. -/
def Lex.wsSkip : Nat → LexState → Except LexErr (Token × LexState)
  | 0, _ => Except.error LexErr.fuel
  | f + 1, σ =>
    let (c, st) := σ.stream.peek
    if !isAsciiWs c.value then Lex.lex f { σ with stream := st }
    else if c.isEof then Lex.lex f { σ with stream := st }
    else
      let (_, st2) := st.next
      Lex.wsSkip f { σ with stream := st2 }

/-- Comment-skipping loop inside `Lex::lex` (lines 73-81): consume until the
newline (inclusive) or EOF, then lex the next token. -/
def Lex.commentSkip : Nat → LexState → Except LexErr (Token × LexState)
  | 0, _ => Except.error LexErr.fuel
  | f + 1, σ =>
    let (c, st) := σ.stream.next
    if c.value = '\n' then Lex.lex f { σ with stream := st }
    else if c.isEof then Lex.lex f { σ with stream := st }
    else Lex.commentSkip f { σ with stream := st }

end

/-- `Lex::scan` (src/crates/lex/src/lib.rs:24-33): lex until EOF, pushing each
non-EOF token.  The final state is returned alongside the token list. -/
def Lex.scan : Nat → LexState → Except LexErr (List Token × LexState)
  | 0, _ => Except.error LexErr.fuel
  | f + 1, σ =>
    match Lex.lex f σ with
    | Except.error e => Except.error e
    | Except.ok (t, σ') =>
      if t.isEof then Except.ok (σ'.tokens, σ')
      else Lex.scan f { σ' with tokens := σ'.tokens ++ [t] }

end Light

namespace Light

/-! ## Types (`common::Type`).  The current `common` crate sources are not
under src/ (src/crates/common/src/lib.rs is a stale iteration without
`SArray`); the variant list is taken from the spec, section 3 "Type", and the
uses in src/crates/tych/src/lib.rs. -/

inductive Ty where
  | int8 | int16 | int32 | int64
  | uint8 | uint16 | uint32 | uint64
  | float | double | bool | char | void
  | sarray (inner : Ty) (size : Nat)
  | comp (name : String)
deriving DecidableEq, Repr

/-- Modelled from the spec: `Display for Type` renders primitives in
lowercase and a `Comp` as its bare name (resolve_type matches the rendering
against the registry of primitive and struct names, section 4.4). -/
def Ty.toStr : Ty → String
  | .int8 => "int8"
  | .int16 => "int16"
  | .int32 => "int32"
  | .int64 => "int64"
  | .uint8 => "uint8"
  | .uint16 => "uint16"
  | .uint32 => "uint32"
  | .uint64 => "uint64"
  | .float => "float"
  | .double => "double"
  | .bool => "bool"
  | .char => "char"
  | .void => "void"
  | .sarray t n => "[" ++ t.toStr ++ "; " ++ toString n ++ "]"
  | .comp n => n

/-- `Type::resolve_primitive` (src/crates/common/src/lib.rs:92-113); also
models the `String → Type` conversion used for struct field annotations. -/
def Ty.fromString (s : String) : Ty :=
  if s = "int8" then .int8
  else if s = "int16" then .int16
  else if s = "int32" then .int32
  else if s = "int64" then .int64
  else if s = "uint8" then .uint8
  else if s = "uint16" then .uint16
  else if s = "uint32" then .uint32
  else if s = "uint64" then .uint64
  else if s = "float" then .float
  else if s = "double" then .double
  else if s = "bool" then .bool
  else if s = "char" then .char
  else if s = "void" then .void
  else if s = "int" then .int32
  else if s = "uint" then .uint32
  else .comp s

/-- `int_types!` (modelled from the spec: the eight integer widths). -/
def Ty.isInt : Ty → Bool
  | .int8 | .int16 | .int32 | .int64 | .uint8 | .uint16 | .uint32 | .uint64 => true
  | _ => false

/-- `float_types!` (modelled from the spec). -/
def Ty.isFloat : Ty → Bool
  | .float | .double => true
  | _ => false

/-- `numeric_types!` (modelled from the spec: integers and floats). -/
def Ty.isNumeric (t : Ty) : Bool := t.isInt || t.isFloat

/-- Modelled from the spec: `Type::dump_types()` — the registry of primitive
type names (section 4.4 "primitives ∪ all struct names"). -/
def dumpTypes : List String :=
  ["int8", "int16", "int32", "int64", "uint8", "uint16", "uint32", "uint64",
   "float", "double", "bool", "char", "void"]

/-- `Display for Operator` (src/crates/common/src/lib.rs:38-70). -/
def opToStr : Op → String
  | .add => "+"
  | .addEq => "+="
  | .assign => "="
  | .and => "&&"
  | .bitAnd => "&"
  | .bitOr => "|"
  | .bitXor => "^"
  | .dec => "--"
  | .div => "/"
  | .divEq => "/="
  | .eq => "=="
  | .gt => ">"
  | .gtEq => ">="
  | .inc => "++"
  | .lt => "<"
  | .ltEq => "<="
  | .mul => "*"
  | .mulEq => "*="
  | .not => "!"
  | .notEq => "!="
  | .or => "||"
  | .pow => "**"
  | .retType => "->"
  | .sub => "-"
  | .subEq => "-="

/-! ## Type-checker errors.  `Err(String)` values are `TErr.err`; Rust panics
(`unreachable!`, `Option::unwrap` on `None`, out-of-bounds indexing) are
`TErr.panic`; `TErr.fuel` marks model fuel exhaustion only. -/

inductive TErr where
  | err (message : String)
  | panic (message : String)
  | fuel
deriving DecidableEq, Repr

/-! ## Symbols (src/crates/common/src/symbol_table/symbol.rs) -/

structure FnData where
  fqName : String
  args : List (String × Ty)
  retTy : Ty
  isExt : Bool
deriving DecidableEq, Repr

structure VarData where
  ty : Ty
deriving DecidableEq, Repr

structure StructData where
  fields : Option (List (String × String))
  methods : Option (List String)
deriving DecidableEq, Repr

inductive AssocData where
  | fnD (d : FnData)
  | varD (d : VarData)
  | structD (d : StructData)
  | moduleD (s : String)
deriving DecidableEq, Repr

structure Symbol where
  name : String
  data : AssocData
  module : String
  isExportable : Bool
deriving DecidableEq, Repr

def Symbol.newFn (name fqName : String) (args : List (String × Ty)) (retTy : Ty)
    (isExt : Bool) (module : String) (isExportable : Bool) : Symbol :=
  ⟨name, AssocData.fnD ⟨fqName, args, retTy, isExt⟩, module, isExportable⟩

def Symbol.newVar (name : String) (ty : Ty) (module : String) : Symbol :=
  ⟨name, AssocData.varD ⟨ty⟩, module, false⟩

def Symbol.newStruct (name : String) (fields : Option (List (String × String)))
    (methods : Option (List String)) (module : String) (isExportable : Bool) : Symbol :=
  ⟨name, AssocData.structD ⟨fields, methods⟩, module, isExportable⟩

/-- `Symbol::ty` (src/crates/common/src/symbol_table/symbol.rs:88-93):
panics unless the symbol is a variable. -/
def Symbol.tyAcc (s : Symbol) : Except TErr Ty :=
  match s.data with
  | AssocData.varD v => Except.ok v.ty
  | _ => Except.error (TErr.panic ("expected symbol to be a variable"))

/-- `Symbol::fq_name` (lines 95-101): `Some` for functions (their mangled
name) and structs (their own name); `None` otherwise. -/
def Symbol.fqNameAcc (s : Symbol) : Option String :=
  match s.data with
  | AssocData.fnD d => some d.fqName
  | AssocData.structD _ => some s.name
  | _ => none

/-! ## Symbol table.  The `SymbolTable` implementation is not under src/;
modelled from the spec, section 4.2: a stack of insertion-ordered frames over
a global frame (depth 0), `insert` into the topmost frame, `get` searching
top towards bottom with the most recent shadow winning, `resolve_symbol`
additionally trying `module::name`. -/

structure SymbolTable where
  global : List (String × Symbol)
  stack : List (List (String × Symbol))
deriving DecidableEq, Repr

def SymbolTable.scopeDepth (t : SymbolTable) : Nat := t.stack.length

def SymbolTable.enterScope (t : SymbolTable) : SymbolTable :=
  { t with stack := [] :: t.stack }

def SymbolTable.leaveScope (t : SymbolTable) : SymbolTable :=
  { t with stack := t.stack.tail }

def SymbolTable.insertWithName (t : SymbolTable) (name : String) (sym : Symbol) : SymbolTable :=
  match t.stack with
  | [] => { t with global := (name, sym) :: t.global }
  | fr :: rest => { t with stack := ((name, sym) :: fr) :: rest }

def SymbolTable.insert (t : SymbolTable) (sym : Symbol) : SymbolTable :=
  t.insertWithName sym.name sym

def SymbolTable.get (t : SymbolTable) (name : String) : Option Symbol :=
  let rec frames : List (List (String × Symbol)) → Option Symbol
    | [] => none
    | fr :: rest =>
      match fr.find? (fun p => p.1 = name) with
      | some p => some p.2
      | none => frames rest
  frames (t.stack ++ [t.global])

def SymbolTable.resolveSymbol (t : SymbolTable) (name module : String) : Option Symbol :=
  match t.get name with
  | some s => some s
  | none => t.get (module ++ "::" ++ name)

/-! ## AST (the `parse::ast` crate is not under src/).  Modelled from the
spec, section 3 "AST node", and the destructuring patterns in
src/crates/tych/src/lib.rs: a node is a single `kind` field whose expression
variants carry their `Option<Type>`.  Float payloads are opaque bit carriers
(no claim depends on floating-point values). -/

structure Proto where
  name : String
  args : List (String × Ty)
  retTy : Ty
deriving DecidableEq, Repr

mutual

inductive LitV where
  | int8 (v : Int)
  | int16 (v : Int)
  | int32 (v : Int)
  | int64 (v : Int)
  | uint8 (v : Nat)
  | uint16 (v : Nat)
  | uint32 (v : Nat)
  | uint64 (v : Nat)
  | float (bits : Nat)
  | double (bits : Nat)
  | bool (b : Bool)
  | char (c : String)
  | array (elements : List Node) (innerTy : Option Ty)
  | comp (xs : List Node)

inductive NKind where
  | forKind (startName : String) (startAntn : Ty) (startExpr : Option Node)
      (condExpr : Node) (stepExpr : Node) (body : Node)
  | letKind (name : String) (antn : Ty) (init : Option Node)
  | fnKind (proto : Proto) (body : Option Node)
  | structKind (name : String) (fields : List Node) (methods : List Node)
  | lit (value : LitV) (ty : Option Ty)
  | ident (name : String) (ty : Option Ty)
  | binop (op : Op) (lhs : Node) (rhs : Node) (ty : Option Ty)
  | unop (op : Op) (rhs : Node) (ty : Option Ty)
  | call (name : String) (args : List Node) (ty : Option Ty)
  | cond (condExpr : Node) (thenBlock : Node) (elseBlock : Option Node) (ty : Option Ty)
  | block (list : List Node) (ty : Option Ty)
  | index (binding : Node) (idx : Node) (ty : Option Ty)
  | fselector (comp : Node) (field : String) (ty : Option Ty)
  | mselector (comp : Node) (methodName : String) (args : List Node) (ty : Option Ty)

inductive Node where
  | mk (kind : NKind)

end

def Node.kind : Node → NKind
  | Node.mk k => k

/-- `Node::ty()`: the type slot of the expression variants; declaration
variants have no type (spec section 3, invariant 1). -/
def Node.ty (n : Node) : Option Ty :=
  match n.kind with
  | NKind.lit _ t => t
  | NKind.ident _ t => t
  | NKind.binop _ _ _ t => t
  | NKind.unop _ _ t => t
  | NKind.call _ _ t => t
  | NKind.cond _ _ _ t => t
  | NKind.block _ t => t
  | NKind.index _ _ t => t
  | NKind.fselector _ _ t => t
  | NKind.mselector _ _ _ t => t
  | _ => none

/-- `Node::is_num_literal` (modelled from the spec: a literal node with a
numeric payload). -/
def Node.isNumLiteral (n : Node) : Bool :=
  match n.kind with
  | NKind.lit v _ =>
    match v with
    | LitV.int8 _ | LitV.int16 _ | LitV.int32 _ | LitV.int64 _
    | LitV.uint8 _ | LitV.uint16 _ | LitV.uint32 _ | LitV.uint64 _
    | LitV.float _ | LitV.double _ => true
    | _ => false
  | _ => false

/-- Modelled from the spec: `Display for ast::Node` is not under src/ and no
claim depends on node rendering; only the node kind is shown. -/
def nodeToStr (n : Node) : String :=
  match n.kind with
  | NKind.forKind .. => "<for>"
  | NKind.letKind .. => "<let>"
  | NKind.fnKind .. => "<fn>"
  | NKind.structKind .. => "<struct>"
  | NKind.lit .. => "<lit>"
  | NKind.ident nm _ => nm
  | NKind.binop .. => "<binop>"
  | NKind.unop .. => "<unop>"
  | NKind.call .. => "<call>"
  | NKind.cond .. => "<cond>"
  | NKind.block .. => "<block>"
  | NKind.index .. => "<index>"
  | NKind.fselector .. => "<fselector>"
  | NKind.mselector .. => "<mselector>"

/-- Short rendering of a literal payload for panic messages. -/
def litToStr : LitV → String
  | LitV.int8 v | LitV.int16 v | LitV.int32 v | LitV.int64 v => toString v
  | LitV.uint8 v | LitV.uint16 v | LitV.uint32 v | LitV.uint64 v => toString v
  | LitV.float v | LitV.double v => toString v
  | LitV.bool b => toString b
  | LitV.char c => c
  | LitV.array .. => "<array>"
  | LitV.comp .. => "<comp>"

end Light

namespace Light

/-! ## Type checker state (src/crates/tych/src/lib.rs, struct Tych) -/

structure TychState where
  symbolTable : SymbolTable
  types : List String
  hint : Option Ty
  currentStruct : Option String
  module : String
deriving DecidableEq, Repr

/-- Checker results: the `Except` outcome together with the state as left at
the return point (Rust mutates `self` in place, so state survives errors). -/
abbrev TRes (α : Type) := Except TErr α × TychState

def bindE {α β : Type} (x : TRes α) (k : α → TychState → TRes β) : TRes β :=
  match x with
  | (Except.ok a, σ) => k a σ
  | (Except.error e, σ) => (Except.error e, σ)

@[simp] theorem bindE_ok {α β : Type} (a : α) (σ : TychState)
    (k : α → TychState → TRes β) : bindE (Except.ok a, σ) k = k a σ := rfl

@[simp] theorem bindE_error {α β : Type} (e : TErr) (σ : TychState)
    (k : α → TychState → TRes β) : bindE (Except.error e, σ) k = (Except.error e, σ) := rfl

def TychState.enter (σ : TychState) : TychState :=
  { σ with symbolTable := σ.symbolTable.enterScope }

def TychState.leave (σ : TychState) : TychState :=
  { σ with symbolTable := σ.symbolTable.leaveScope }

def TychState.insertSym (σ : TychState) (s : Symbol) : TychState :=
  { σ with symbolTable := σ.symbolTable.insert s }

def TychState.insertWithName (σ : TychState) (name : String) (s : Symbol) : TychState :=
  { σ with symbolTable := σ.symbolTable.insertWithName name s }

def TychState.depth (σ : TychState) : Nat := σ.symbolTable.scopeDepth

/-- `Tych::resolve_type` (src/crates/tych/src/lib.rs:110-125). -/
def resolveType (σ : TychState) (ty : Ty) : Option Ty :=
  match ty with
  | Ty.sarray _ _ => some ty
  | _ =>
    let cands := [ty.toStr, σ.module ++ "::" ++ ty.toStr]
    match cands.find? (fun s => σ.types.contains s) with
    | some tyStr =>
      match ty with
      | Ty.comp _ => some (Ty.comp tyStr)
      | _ => some ty
    | none => none

/-- `Tych::get_composite_symbol` (src/crates/tych/src/lib.rs:128-139). -/
def getCompositeSymbol (σ : TychState) (ty : Option Ty) : Except TErr Symbol :=
  match ty with
  | some (Ty.comp name) =>
    match σ.symbolTable.resolveSymbol name σ.module with
    | some sym => Except.ok sym
    | none => Except.error (TErr.err ("Unknown composite type: `" ++ name ++ "`"))
  | some t =>
    Except.error (TErr.err ("Attempt to use selector on non-composite type: " ++ t.toStr))
  | none => Except.error (TErr.panic ("no type for for selector target in tych"))

/-- Modelled from the spec: `convert_num!` (the macro file
src/crates/tych/src/macros.rs is not under src/) narrows a parsed `u64`
literal value to the hinted integer width; overflow is an error
(spec sections 4.4 and 9 "Literal width inference"). -/
def convertNumU64 (v : Nat) (hint : Ty) : Except TErr (LitV × Ty) :=
  match hint with
  | Ty.int8 => if v ≤ 127 then Except.ok (LitV.int8 v, Ty.int8)
               else Except.error (TErr.err ("Numeric literal out of range"))
  | Ty.int16 => if v ≤ 32767 then Except.ok (LitV.int16 v, Ty.int16)
                else Except.error (TErr.err ("Numeric literal out of range"))
  | Ty.int32 => if v ≤ 2147483647 then Except.ok (LitV.int32 v, Ty.int32)
                else Except.error (TErr.err ("Numeric literal out of range"))
  | Ty.int64 => if v ≤ 9223372036854775807 then Except.ok (LitV.int64 v, Ty.int64)
                else Except.error (TErr.err ("Numeric literal out of range"))
  | Ty.uint8 => if v ≤ 255 then Except.ok (LitV.uint8 v, Ty.uint8)
                else Except.error (TErr.err ("Numeric literal out of range"))
  | Ty.uint16 => if v ≤ 65535 then Except.ok (LitV.uint16 v, Ty.uint16)
                 else Except.error (TErr.err ("Numeric literal out of range"))
  | Ty.uint32 => if v ≤ 4294967295 then Except.ok (LitV.uint32 v, Ty.uint32)
                 else Except.error (TErr.err ("Numeric literal out of range"))
  | Ty.uint64 => Except.ok (LitV.uint64 v, Ty.uint64)
  | _ => Except.error (TErr.panic ("convert_num! on non-integer type"))

/-- Modelled from the spec: the `f32 → f64` conversion in `convert_num!`;
float payloads are opaque bit carriers here (no claim depends on
floating-point values). -/
def f32ToF64 (bits : Nat) : Nat := bits

/-- Operand agreement and operator typing for `Tych::visit_binop`
(src/crates/tych/src/lib.rs:442-499), after both operands are checked. -/
def binopType (op : Op) (lhsTy rhsTy : Ty) : Except TErr Ty :=
  if lhsTy ≠ rhsTy then
    Except.error (TErr.err
      ("Mismatched types in binop: `" ++ lhsTy.toStr ++ "` != `" ++ rhsTy.toStr ++ "`"))
  else
    match op with
    | Op.and | Op.or =>
      if lhsTy ≠ Ty.bool || rhsTy ≠ Ty.bool then
        Except.error (TErr.err
          ("Expected bools on either side of `" ++ opToStr op ++ "`, got lhs: `"
            ++ lhsTy.toStr ++ "`, rhs: `" ++ rhsTy.toStr ++ "`"))
      else Except.ok Ty.bool
    | Op.eq | Op.notEq =>
      if (lhsTy.isNumeric || lhsTy = Ty.bool || lhsTy = Ty.char)
          && (rhsTy.isNumeric || rhsTy = Ty.bool || rhsTy = Ty.char) then
        Except.ok Ty.bool
      else
        Except.error (TErr.err
          ("Invalid type combination found in `" ++ opToStr op ++ "` operation: (lhs: `"
            ++ lhsTy.toStr ++ "`, rhs: `" ++ rhsTy.toStr ++ "`)"))
    | Op.gt | Op.gtEq | Op.lt | Op.ltEq =>
      if (lhsTy.isNumeric || lhsTy = Ty.char) && (rhsTy.isNumeric || rhsTy = Ty.char) then
        Except.ok Ty.bool
      else
        Except.error (TErr.err
          ("Invalid type combination found in `" ++ opToStr op ++ "` operation: (lhs: `"
            ++ lhsTy.toStr ++ "`, rhs: `" ++ rhsTy.toStr ++ "`)"))
    | Op.add | Op.div | Op.mul | Op.pow | Op.sub | Op.bitAnd | Op.bitXor | Op.bitOr =>
      if lhsTy.isNumeric && rhsTy.isNumeric then Except.ok lhsTy
      else
        Except.error (TErr.err
          ("Invalid type combination found in `" ++ opToStr op ++ "` operation: (lhs: `"
            ++ lhsTy.toStr ++ "`, rhs: `" ++ rhsTy.toStr ++ "`)"))
    | _ => Except.ok Ty.void

/-- Assignment LHS shape check in `Tych::visit_binop`
(src/crates/tych/src/lib.rs:416-422). -/
def isAssignTarget (n : Node) : Bool :=
  match n.kind with
  | NKind.ident .. => true
  | NKind.index .. => true
  | NKind.fselector .. => true
  | _ => false

/-- Argument insertion loop of `Tych::visit_fn`
(src/crates/tych/src/lib.rs:244-259): resolve each parameter type, insert it
as a variable into the (freshly entered) scope, and collect the resolved
pairs. -/
def visitFnArgs (protoName : String) :
    List (String × Ty) → TychState → Except TErr (List (String × Ty)) × TychState
  | [], σ => (Except.ok [], σ)
  | (a, t) :: rest, σ =>
    match resolveType σ t with
    | none =>
      (Except.error (TErr.err
        ("Unknown argument type in prototype `" ++ protoName ++ "` for `" ++ a
          ++ "`: `" ++ t.toStr ++ "`")), σ)
    | some t1 =>
      let σ := σ.insertSym (Symbol.newVar a t1 σ.module)
      match visitFnArgs protoName rest σ with
      | (Except.ok l, σ') => (Except.ok ((a, t1) :: l), σ')
      | (Except.error e, σ') => (Except.error e, σ')

/-- Post-check parameter/argument agreement loop of `Tych::visit_call`
(src/crates/tych/src/lib.rs:566-583); purely reads the state. -/
def checkArgTys (σ : TychState) (name : String) :
    List Ty → List Ty → Nat → Except TErr Unit
  | [], _, _ => Except.ok ()
  | _, [], _ => Except.ok ()
  | fa :: fas, ca :: cas, idx =>
    match resolveType σ fa with
    | none => Except.error (TErr.panic ("bad arg type in `visit_call()`"))
    | some fp =>
      if fp ≠ ca then
        Except.error (TErr.err
          ("Type mismatch in arg " ++ toString (idx + 1) ++ " of call to `" ++ name
            ++ "()`: `" ++ fp.toStr ++ "` != `" ++ ca.toStr ++ "`"))
      else checkArgTys σ name fas cas (idx + 1)

/-- Modelled from the spec: `Symbol::from(&Prototype)` (the current
`Prototype` impl is not under src/); the fully-qualified name encodes name,
arguments and return type (spec section 9 "Fully-qualified names", and the
`to_symbol` test vectors in src/crates/ast/src/prototype.rs). -/
def mangleProto (p : Proto) : String :=
  p.name ++ "~"
    ++ (p.args.foldl (fun acc a => acc ++ a.1 ++ ":" ++ a.2.toStr ++ "~") "")
    ++ p.retTy.toStr

def Symbol.fromProto (p : Proto) : Symbol :=
  ⟨p.name, AssocData.fnD ⟨mangleProto p, p.args, p.retTy, false⟩, "", false⟩

/-- Scalar-literal retyping of `Tych::visit_lit`
(src/crates/tych/src/lib.rs:346-398), as a function of the current hint.
With a hint: already-narrowed numerics pass through with their own type, a
`UInt64` payload is narrowed via `convert_num!`, floats convert, and
non-matching hints are errors.  Without a hint: `Int32` passes through (only
used for main's return value), `UInt64` defaults to `Int32` with a range
check, floats default to `Float`, and remaining numeric shapes are
`unreachable!`.  Array literals never reach this function. -/
def visitLitScalar (value : LitV) (hintOpt : Option Ty) : Except TErr Node :=
  match hintOpt with
  | some hint =>
    match value with
    | LitV.int8 v => Except.ok (Node.mk (NKind.lit (LitV.int8 v) (some Ty.int8)))
    | LitV.int16 v => Except.ok (Node.mk (NKind.lit (LitV.int16 v) (some Ty.int16)))
    | LitV.int32 v => Except.ok (Node.mk (NKind.lit (LitV.int32 v) (some Ty.int32)))
    | LitV.int64 v => Except.ok (Node.mk (NKind.lit (LitV.int64 v) (some Ty.int64)))
    | LitV.uint8 v => Except.ok (Node.mk (NKind.lit (LitV.uint8 v) (some Ty.uint8)))
    | LitV.uint16 v => Except.ok (Node.mk (NKind.lit (LitV.uint16 v) (some Ty.uint16)))
    | LitV.uint32 v => Except.ok (Node.mk (NKind.lit (LitV.uint32 v) (some Ty.uint32)))
    | LitV.uint64 v =>
      match hint with
      | Ty.int8 | Ty.int16 | Ty.int32 | Ty.int64
      | Ty.uint8 | Ty.uint16 | Ty.uint32 | Ty.uint64 =>
        match convertNumU64 v hint with
        | Except.ok (newLit, litTy) => Except.ok (Node.mk (NKind.lit newLit (some litTy)))
        | Except.error e => Except.error e
      | Ty.float | Ty.double =>
        Except.error (TErr.err ("Literal is an integer in a float context"))
      | Ty.bool => Except.error (TErr.err ("Literal is an integer in a bool context"))
      | Ty.char => Except.error (TErr.err ("Literal is an integer in a char context"))
      | Ty.sarray _ _ => Except.error (TErr.err ("Literal is an integer in an sarray context"))
      | Ty.void => Except.error (TErr.err ("Literal is an integer in a void context"))
      | Ty.comp _ => Except.error (TErr.err ("Literal is an integer in a compound context"))
    | LitV.float v =>
      match hint with
      | Ty.float => Except.ok (Node.mk (NKind.lit (LitV.float v) (some Ty.float)))
      | Ty.double => Except.ok (Node.mk (NKind.lit (LitV.double (f32ToF64 v)) (some Ty.double)))
      | Ty.int8 | Ty.int16 | Ty.int32 | Ty.int64
      | Ty.uint8 | Ty.uint16 | Ty.uint32 | Ty.uint64 =>
        Except.error (TErr.err ("Literal is a float in an integer context"))
      | Ty.bool => Except.error (TErr.err ("Literal is a float in a bool context"))
      | Ty.char => Except.error (TErr.err ("Literal is a float in a char context"))
      | Ty.sarray _ _ => Except.error (TErr.err ("Literal is a float in an sarray context"))
      | _ => Except.error (TErr.panic ("float conversion error"))
    | LitV.double v => Except.ok (Node.mk (NKind.lit (LitV.double v) (some Ty.double)))
    | LitV.bool b => Except.ok (Node.mk (NKind.lit (LitV.bool b) (some Ty.bool)))
    | LitV.char c => Except.ok (Node.mk (NKind.lit (LitV.char c) (some Ty.char)))
    | LitV.comp _ => Except.error (TErr.panic ("composite types don't exist in the tych"))
    | LitV.array el ity =>
      -- not reached: the caller routes arrays to check_lit_array
      Except.error (TErr.panic ("expected array literal: " ++ litToStr (LitV.array el ity)))
  | none =>
    match value with
    | LitV.int32 v =>
      -- Only used for main's return value
      Except.ok (Node.mk (NKind.lit (LitV.int32 v) (some Ty.int32)))
    | LitV.uint64 v =>
      if v ≤ 2147483647 then
        Except.ok (Node.mk (NKind.lit (LitV.int32 (v : Int)) (some Ty.int32)))
      else Except.error (TErr.err ("Numeric literal out of range"))
    | LitV.float v => Except.ok (Node.mk (NKind.lit (LitV.float v) (some Ty.float)))
    | LitV.bool b => Except.ok (Node.mk (NKind.lit (LitV.bool b) (some Ty.bool)))
    | LitV.char c => Except.ok (Node.mk (NKind.lit (LitV.char c) (some Ty.char)))
    | LitV.array el ity =>
      -- not reached: the caller routes arrays to check_lit_array
      Except.error (TErr.panic ("expected array literal: " ++ litToStr (LitV.array el ity)))
    | x => Except.error (TErr.panic ("numeric conversion error for " ++ litToStr x))

/-- Scope-entry `self` injection of `Tych::visit_fn` (lines 239-241): when
checking inside a struct, bind `self` to the struct's composite type. -/
def selfInserted (σ : TychState) : TychState :=
  match σ.currentStruct with
  | some nm => σ.insertSym (Symbol.newVar ("self") (Ty.comp nm) σ.module)
  | none => σ

/-- Tail of `Tych::visit_fn` (src/crates/tych/src/lib.rs:275-291) after the
`main` handling: the declared-versus-body type check (whose error message
reads `fn_entry.ret_ty()`, a panic for a non-function symbol), then
`leave_scope` and the re-insertion of the symbol built from the prototype. -/
def visitFnFinish (fnEntry : Symbol) (retTy bodyTy : Ty) (bodyNode : Node)
    (proto2 : Proto) (σ : TychState) : TRes Node :=
  if retTy ≠ bodyTy ∧ retTy ≠ Ty.void ∧ proto2.name ≠ "main" then
    match fnEntry.data with
    | AssocData.fnD d =>
      (Except.error (TErr.err
        ("Function `" ++ proto2.name ++ "` should return type `"
          ++ d.retTy.toStr ++ "` but last statement is `" ++ bodyTy.toStr ++ "`")), σ)
    | _ => (Except.error (TErr.panic ("expected symbol to be a function")), σ)
  else
    let σ := σ.leave
    let σ := σ.insertWithName proto2.name (Symbol.fromProto proto2)
    (Except.ok (Node.mk (NKind.fnKind proto2 (some bodyNode))), σ)

/-- The `main` handling of `Tych::visit_fn` (lines 265-273): `main` may not
carry a non-void resolved return annotation and its return type is forced to
`Void`; for other functions the resolved type is stored. -/
def visitFnMain (fnEntry : Symbol) (retTy bodyTy : Ty) (bodyNode : Node)
    (proto1 : Proto) (σ : TychState) : TRes Node :=
  if proto1.name = "main" then
    if retTy ≠ Ty.void then
      (Except.error (TErr.err
        ("main()'s return value shouldn't be annotated. Found `" ++ retTy.toStr ++ "`")), σ)
    else visitFnFinish fnEntry retTy bodyTy bodyNode { proto1 with retTy := Ty.void } σ
  else visitFnFinish fnEntry retTy bodyTy bodyNode { proto1 with retTy := retTy } σ


end Light

namespace Light

mutual

/-- `Tych::check_node` (src/crates/tych/src/lib.rs:47-50): set the hint,
then visit. -/
def checkNode : Nat → Node → Option Ty → TychState → TRes Node
  | 0, _, _, σ => (Except.error TErr.fuel, σ)
  | f + 1, node, hint, σ => visitNode f node { σ with hint := hint }

/-- `visit_node` / `Node::accept`: dispatch on the node kind. -/
def visitNode : Nat → Node → TychState → TRes Node
  | 0, _, σ => (Except.error TErr.fuel, σ)
  | f + 1, node, σ =>
    match node.kind with
    | NKind.forKind a b c d e g => visitFor f a b c d e g σ
    | NKind.letKind a b c => visitLet f a b c σ
    | NKind.fnKind a b => visitFn f a b σ
    | NKind.structKind a b c => visitStruct f a b c σ
    | NKind.lit a b => visitLit f a b σ
    | NKind.ident a b => visitIdent f a b σ
    | NKind.binop a b c d => visitBinop f a b c d σ
    | NKind.unop a b c => visitUnop f a b c σ
    | NKind.call a b c => visitCall f a b c σ
    | NKind.cond a b c d => visitCond f a b c d σ
    | NKind.block a b => visitBlock f a b σ
    | NKind.index a b c => visitIndex f a b c σ
    | NKind.fselector a b c => visitFSelector f a b c σ
    | NKind.mselector a b c d => visitMSelector f a b c d σ

/-- `Tych::check_var_init` (src/crates/tych/src/lib.rs:90-107). -/
def checkVarInit : Nat → String → Option Node → Ty → String → TychState → TRes (Option Node)
  | 0, _, _, _, _, σ => (Except.error TErr.fuel, σ)
  | f + 1, name, init, antn, caller, σ =>
    match init with
    | none => (Except.ok none, σ)
    | some init =>
      bindE (checkNode f init (some antn) σ) fun initNode σ =>
      let initTy := initNode.ty.getD Ty.void
      if antn ≠ initTy then
        (Except.error (TErr.err
          ("Types don't match in " ++ caller ++ ". `" ++ name ++ "` annotated with `"
            ++ antn.toStr ++ "` but initial value is `" ++ initTy.toStr ++ "`")), σ)
      else (Except.ok (some initNode), σ)

/-- `Tych::check_lit_array` (src/crates/tych/src/lib.rs:52-87).  The
`ty_hint.unwrap()` and the two `unreachable!`s are panics. -/
def checkLitArray : Nat → LitV → Option Ty → TychState → TRes (LitV × Ty)
  | 0, _, _, σ => (Except.error TErr.fuel, σ)
  | f + 1, lit, tyHint, σ =>
    match lit with
    | LitV.array elements _ =>
      match tyHint with
      | none =>
        (Except.error (TErr.panic ("called `Option::unwrap()` on a `None` value")), σ)
      | some (Ty.sarray ty size) =>
        -- `elements.len() as u32 as usize > size`
        if elements.length % 4294967296 > size then
          (Except.error (TErr.err
            ("SArray literal too big in assignment: `" ++ toString elements.length
              ++ "` > `" ++ toString size ++ "`")), σ)
        else
          bindE (checkLitArrayElems f ty elements σ) fun chkdElements σ =>
          (Except.ok (LitV.array chkdElements (some ty), Ty.sarray ty size), σ)
      | some errTy =>
        (Except.error (TErr.panic
          ("array literal has invalid type hint `" ++ errTy.toStr ++ "`")), σ)
    | _ => (Except.error (TErr.panic ("expected array literal")), σ)

/-- Element loop of `Tych::check_lit_array` (lines 75-83). -/
def checkLitArrayElems : Nat → Ty → List Node → TychState → TRes (List Node)
  | 0, _, _, σ => (Except.error TErr.fuel, σ)
  | _ + 1, _, [], σ => (Except.ok [], σ)
  | f + 1, ty, el :: rest, σ =>
    bindE (checkNode f el (some ty) σ) fun elNode σ =>
    let elTy := elNode.ty.getD Ty.void
    if elTy ≠ ty then
      (Except.error (TErr.err
        ("Array literal's element wrong type: `" ++ nodeToStr elNode ++ "` isn't a `"
          ++ ty.toStr ++ "`")), σ)
    else
      bindE (checkLitArrayElems f ty rest σ) fun chkd σ =>
      (Except.ok (elNode :: chkd), σ)

/-- `Tych::visit_for` (src/crates/tych/src/lib.rs:150-189). -/
def visitFor : Nat → String → Ty → Option Node → Node → Node → Node → TychState → TRes Node
  | 0, _, _, _, _, _, _, σ => (Except.error TErr.fuel, σ)
  | f + 1, startName, startAntn, startExpr, condExpr, stepExpr, body, σ =>
    let σ := σ.enter
    let σ := σ.insertSym (Symbol.newVar startName startAntn σ.module)
    bindE (checkVarInit f startName startExpr startAntn ("for statement") σ) fun startExpr1 σ =>
    match resolveType σ startAntn with
    | none =>
      (Except.error (TErr.err
        ("Unknown type for start declaration in for loop: `" ++ startAntn.toStr ++ "`")), σ)
    | some startAntn1 =>
      bindE (checkNode f condExpr none σ) fun cond1 σ =>
      if cond1.ty.getD Ty.void ≠ Ty.bool then
        (Except.error (TErr.err ("For loop conditional should always be a bool")), σ)
      else
        bindE (checkNode f stepExpr (some startAntn1) σ) fun step1 σ =>
        let stepTy := step1.ty.getD Ty.void
        if stepTy ≠ startAntn1 then
          (Except.error (TErr.err
            ("Step type mismatch in for statement. Step is `" ++ stepTy.toStr
              ++ "` but `" ++ startName ++ "` is `" ++ startAntn1.toStr ++ "`")), σ)
        else
          bindE (checkNode f body none σ) fun bodyNode σ =>
          let σ := σ.leave
          (Except.ok (Node.mk
            (NKind.forKind startName startAntn1 startExpr1 cond1 step1 bodyNode)), σ)

/-- `Tych::visit_let` (src/crates/tych/src/lib.rs:191-208). -/
def visitLet : Nat → String → Ty → Option Node → TychState → TRes Node
  | 0, _, _, _, σ => (Except.error TErr.fuel, σ)
  | f + 1, name, antn, init, σ =>
    match resolveType σ antn with
    | none =>
      (Except.error (TErr.err ("Unknown type in let declaration: `" ++ antn.toStr ++ "`")), σ)
    | some antn1 =>
      match σ.currentStruct with
      | none =>
        let σ := σ.insertSym (Symbol.newVar name antn1 σ.module)
        bindE (checkVarInit f name init antn1 ("let statement") σ) fun initNode σ =>
        (Except.ok (Node.mk (NKind.letKind name antn1 initNode)), σ)
      | some _ =>
        if init.isSome then
          (Except.error (TErr.err
            ("initializers aren't supported for struct fields at `" ++ name ++ "`")), σ)
        else (Except.ok (Node.mk (NKind.letKind name antn1 none)), σ)

/-- `Tych::visit_fn` (src/crates/tych/src/lib.rs:210-292): look up the
pre-registered symbol, resolve the declared return type, finish immediately
for externs, otherwise check the body via `visitFnBody`. -/
def visitFn : Nat → Proto → Option Node → TychState → TRes Node
  | 0, _, _, σ => (Except.error TErr.fuel, σ)
  | f + 1, proto, body, σ =>
    match σ.symbolTable.get proto.name with
    | none =>
      (Except.error (TErr.panic
        ("missing symbol table entry for function: `" ++ proto.name ++ "`")), σ)
    | some fnEntry =>
      match resolveType σ proto.retTy with
      | none =>
        (Except.error (TErr.err
          ("Unknown return type in prototype for `" ++ proto.name ++ "`: `"
            ++ proto.retTy.toStr ++ "`")), σ)
      | some retTy =>
        match body with
        | none => (Except.ok (Node.mk (NKind.fnKind proto none)), σ)
        | some body => visitFnBody f fnEntry retTy proto body σ

/-- Body part of `Tych::visit_fn` (lines 235-291): enter the argument scope,
inject `self` for methods, resolve and insert the parameters, check the
body, then run the `main`-name handling and the return-type check. -/
def visitFnBody : Nat → Symbol → Ty → Proto → Node → TychState → TRes Node
  | 0, _, _, _, _, σ => (Except.error TErr.fuel, σ)
  | g + 1, fnEntry, retTy, proto, body, σ =>
    match visitFnArgs proto.name proto.args (selfInserted σ.enter) with
    | (Except.error e, σ2) => (Except.error e, σ2)
    | (Except.ok resolvedArgs, σ2) =>
      bindE (checkNode g body none σ2) fun bodyNode σ3 =>
      visitFnMain fnEntry retTy (bodyNode.ty.getD Ty.void) bodyNode
        { proto with args := resolvedArgs } σ3

/-- `Tych::visit_struct` (src/crates/tych/src/lib.rs:295-337). -/
def visitStruct : Nat → String → List Node → List Node → TychState → TRes Node
  | 0, _, _, _, σ => (Except.error TErr.fuel, σ)
  | f + 1, name, fields, methods, σ =>
    if σ.symbolTable.scopeDepth ≠ 0 then
      (Except.error (TErr.err ("structs can only be defined at the global level")), σ)
    else
      let σ := { σ with currentStruct := some name }
      bindE (checkNodeListNone f fields σ) fun chkdFields σ =>
      bindE (checkNodeListNone f methods σ) fun chkdMethods σ =>
      let σ := { σ with currentStruct := none }
      let symFields := chkdFields.filterMap (fun n =>
        match n.kind with
        | NKind.letKind nm antn _ => some (nm, antn.toStr)
        | _ => none)
      match σ.symbolTable.get name with
      | none =>
        (Except.error (TErr.panic
          ("missing symbol table entry for `" ++ name ++ "` in `visit_struct()`")), σ)
      | some sym =>
        match sym.data with
        | AssocData.structD d =>
          match d.methods with
          | none =>
            (Except.error (TErr.panic
              ("missing struct symbol methods for `" ++ name ++ "` in `visit_struct()`")), σ)
          | some ms =>
            let σ := σ.insertSym (Symbol.newStruct name (some symFields) (some ms) σ.module true)
            (Except.ok (Node.mk (NKind.structKind name chkdFields chkdMethods)), σ)
        | _ => (Except.error (TErr.panic ("expected symbol to be a struct")), σ)

/-- Loop `nodes.iter().map(|n| self.check_node(n.clone(), None)).collect()`
used for struct fields and methods (src/crates/tych/src/lib.rs:303-306). -/
def checkNodeListNone : Nat → List Node → TychState → TRes (List Node)
  | 0, _, σ => (Except.error TErr.fuel, σ)
  | _ + 1, [], σ => (Except.ok [], σ)
  | f + 1, n :: rest, σ =>
    bindE (checkNode f n none σ) fun n1 σ =>
    bindE (checkNodeListNone f rest σ) fun rest1 σ =>
    (Except.ok (n1 :: rest1), σ)

/-- `Tych::visit_lit` (src/crates/tych/src/lib.rs:341-401): array literals
are delegated to `check_lit_array` with the current hint; every other
literal is retyped by `visitLitScalar`. -/
def visitLit : Nat → LitV → Option Ty → TychState → TRes Node
  | 0, _, _, σ => (Except.error TErr.fuel, σ)
  | f + 1, value, _ty, σ =>
    match value with
    | LitV.array el ity =>
      bindE (checkLitArray f (LitV.array el ity) σ.hint σ) fun p σ =>
      (Except.ok (Node.mk (NKind.lit p.1 (some p.2))), σ)
    | v => (visitLitScalar v σ.hint, σ)

/-- `Tych::visit_ident` (src/crates/tych/src/lib.rs:403-407).  `Symbol::ty`
panics when the name is bound to anything but a variable. -/
def visitIdent : Nat → String → Option Ty → TychState → TRes Node
  | 0, _, _, σ => (Except.error TErr.fuel, σ)
  | _ + 1, name, _ty, σ =>
    match σ.symbolTable.get name with
    | none => (Except.error (TErr.err ("Unknown variable: `" ++ name ++ "`")), σ)
    | some sym =>
      match sym.tyAcc with
      | Except.ok identTy => (Except.ok (Node.mk (NKind.ident name (some identTy))), σ)
      | Except.error e => (Except.error e, σ)

/-- `Tych::visit_binop` (src/crates/tych/src/lib.rs:410-502). -/
def visitBinop : Nat → Op → Node → Node → Option Ty → TychState → TRes Node
  | 0, _, _, _, _, σ => (Except.error TErr.fuel, σ)
  | f + 1, op, lhs, rhs, _ty, σ =>
    if op = Op.assign ∧ ¬ isAssignTarget lhs then
      (Except.error (TErr.err ("Expected LHS to be a variable for assignment")), σ)
    else if lhs.isNumLiteral then
      bindE (checkNode f rhs none σ) fun chkdRhs σ =>
      let rhsTy := chkdRhs.ty.getD Ty.void
      bindE (checkNode f lhs (some rhsTy) σ) fun chkdLhs σ =>
      let lhsTy := chkdLhs.ty.getD Ty.void
      match binopType op lhsTy rhsTy with
      | Except.error e => (Except.error e, σ)
      | Except.ok ty => (Except.ok (Node.mk (NKind.binop op chkdLhs chkdRhs (some ty))), σ)
    else
      bindE (checkNode f lhs none σ) fun chkdLhs σ =>
      let lhsTy := chkdLhs.ty.getD Ty.void
      bindE (checkNode f rhs (some lhsTy) σ) fun chkdRhs σ =>
      let rhsTy := chkdRhs.ty.getD Ty.void
      match binopType op lhsTy rhsTy with
      | Except.error e => (Except.error e, σ)
      | Except.ok ty => (Except.ok (Node.mk (NKind.binop op chkdLhs chkdRhs (some ty))), σ)

/-- `Tych::visit_unop` (src/crates/tych/src/lib.rs:504-517). -/
def visitUnop : Nat → Op → Node → Option Ty → TychState → TRes Node
  | 0, _, _, _, σ => (Except.error TErr.fuel, σ)
  | f + 1, op, rhs, _ty, σ =>
    bindE (checkNode f rhs none σ) fun chkdRhs σ =>
    let rhsTy := chkdRhs.ty.getD Ty.void
    if rhsTy.isNumeric then
      (Except.ok (Node.mk (NKind.unop op chkdRhs (some rhsTy))), σ)
    else
      (Except.error (TErr.err
        ("Expected numeric type in unary operation `" ++ opToStr op ++ "`, got rhs: `"
          ++ rhsTy.toStr ++ "`")), σ)

/-- `Tych::visit_call` (src/crates/tych/src/lib.rs:522-586). -/
def visitCall : Nat → String → List Node → Option Ty → TychState → TRes Node
  | 0, _, _, _, σ => (Except.error TErr.fuel, σ)
  | f + 1, name, args, _ty, σ =>
    match σ.symbolTable.resolveSymbol name σ.module with
    | none => (Except.error (TErr.err ("Call to undefined function: `" ++ name ++ "`")), σ)
    | some fnEntry =>
      match fnEntry.fqNameAcc with
      | none => (Except.error (TErr.panic ("non-function symbol in `visit_call()`")), σ)
      | some fq =>
        match fnEntry.data with
        | AssocData.fnD d =>
          let feArgTys := d.args.map (fun a => a.2)
          if feArgTys.length ≠ args.length then
            (Except.error (TErr.err
              ("Call to `" ++ fq ++ "()` takes " ++ toString feArgTys.length
                ++ " args and " ++ toString args.length ++ " were given")), σ)
          else
            match resolveType σ d.retTy with
            | none => (Except.error (TErr.panic ("unknown return type in `visit_call()`")), σ)
            | some retTy =>
              bindE (checkCallArgs f args feArgTys σ) fun chkdArgs σ =>
              match checkArgTys σ fq feArgTys (chkdArgs.map (fun n => n.ty.getD Ty.void)) 0 with
              | Except.error e => (Except.error e, σ)
              | Except.ok _ =>
                (Except.ok (Node.mk (NKind.call fq chkdArgs (some retTy))), σ)
        | _ => (Except.error (TErr.panic ("expected symbol to be a function")), σ)

/-- Argument-checking loop of `Tych::visit_call` (lines 557-563); the
parameter types are the hints. -/
def checkCallArgs : Nat → List Node → List Ty → TychState → TRes (List Node)
  | 0, _, _, σ => (Except.error TErr.fuel, σ)
  | _ + 1, [], _, σ => (Except.ok [], σ)
  | f + 1, a :: rest, tys, σ =>
    match tys with
    | [] => (Except.error (TErr.panic ("index out of bounds in `visit_call()`")), σ)
    | t :: trest =>
      bindE (checkNode f a (some t) σ) fun chkd σ =>
      bindE (checkCallArgs f rest trest σ) fun chkds σ =>
      (Except.ok (chkd :: chkds), σ)

/-- `Tych::visit_cond` (src/crates/tych/src/lib.rs:588-616). -/
def visitCond : Nat → Node → Node → Option Node → Option Ty → TychState → TRes Node
  | 0, _, _, _, _, σ => (Except.error TErr.fuel, σ)
  | f + 1, condExpr, thenBlock, elseBlock, _ty, σ =>
    bindE (checkNode f condExpr none σ) fun chkdCond σ =>
    if chkdCond.ty.getD Ty.void ≠ Ty.bool then
      (Except.error (TErr.err ("Conditional should always be a bool")), σ)
    else
      bindE (checkNode f thenBlock none σ) fun chkdThen σ =>
      let thenTy := chkdThen.ty.getD Ty.void
      match elseBlock with
      | some elseBlock =>
        bindE (checkNode f elseBlock (some thenTy) σ) fun chkdElse σ =>
        let elseTy := chkdElse.ty.getD Ty.void
        if thenTy ≠ elseTy then
          (Except.error (TErr.err
            ("Both arms of conditional must be the same type: `then` == `"
              ++ thenTy.toStr ++ "`; `else` == `" ++ elseTy.toStr ++ "`")), σ)
        else
          (Except.ok (Node.mk (NKind.cond chkdCond chkdThen (some chkdElse) (some thenTy))), σ)
      | none =>
        (Except.ok (Node.mk (NKind.cond chkdCond chkdThen none (some thenTy))), σ)

/-- `Tych::visit_block` (src/crates/tych/src/lib.rs:619-634). -/
def visitBlock : Nat → List Node → Option Ty → TychState → TRes Node
  | 0, _, _, σ => (Except.error TErr.fuel, σ)
  | f + 1, list, _ty, σ =>
    let σ := σ.enter
    bindE (blockLoop f list σ) fun p σ =>
    let σ := σ.leave
    (Except.ok (Node.mk (NKind.block p.1 (some p.2))), σ)

/-- Statement loop of `Tych::visit_block` (lines 623-629): the block type is
the last statement's type, `Void` for an empty block. -/
def blockLoop : Nat → List Node → TychState → TRes (List Node × Ty)
  | 0, _, σ => (Except.error TErr.fuel, σ)
  | _ + 1, [], σ => (Except.ok ([], Ty.void), σ)
  | f + 1, n :: rest, σ =>
    bindE (checkNode f n none σ) fun chkd σ =>
    bindE (blockLoop f rest σ) fun p σ =>
    match p.1 with
    | [] => (Except.ok ([chkd], chkd.ty.getD Ty.void), σ)
    | _ => (Except.ok (chkd :: p.1, p.2), σ)

/-- `Tych::visit_index` (src/crates/tych/src/lib.rs:636-652). -/
def visitIndex : Nat → Node → Node → Option Ty → TychState → TRes Node
  | 0, _, _, _, σ => (Except.error TErr.fuel, σ)
  | f + 1, binding, idx, _ty, σ =>
    bindE (checkNode f binding none σ) fun chkdBinding σ =>
    match chkdBinding.ty.getD Ty.void with
    | Ty.sarray t _ =>
      bindE (checkNode f idx (some Ty.int32) σ) fun chkdIdx σ =>
      let idxTy := chkdIdx.ty.getD Ty.void
      if ¬ idxTy.isInt then
        (Except.error (TErr.err
          ("Array index must be an `int`, found `" ++ idxTy.toStr ++ "`")), σ)
      else if idxTy ≠ Ty.int32 then
        (Except.error (TErr.err ("Index must be an int32 (for now)")), σ)
      else (Except.ok (Node.mk (NKind.index chkdBinding chkdIdx (some t))), σ)
    | t => (Except.error (TErr.err ("Can't index `" ++ t.toStr ++ "`")), σ)

/-- `Tych::visit_fselector` (src/crates/tych/src/lib.rs:654-672). -/
def visitFSelector : Nat → Node → String → Option Ty → TychState → TRes Node
  | 0, _, _, _, σ => (Except.error TErr.fuel, σ)
  | f + 1, comp, field, _ty, σ =>
    bindE (checkNode f comp none σ) fun chkdComp σ =>
    match getCompositeSymbol σ chkdComp.ty with
    | Except.error e => (Except.error e, σ)
    | Except.ok compSym =>
      match compSym.data with
      | AssocData.structD d =>
        match (d.fields.getD []).find? (fun p => p.1 = field) with
        | none =>
          (Except.error (TErr.err
            ("composite `" ++ compSym.name ++ "` has no field: `" ++ field ++ "`")), σ)
        | some fld =>
          match resolveType σ (Ty.fromString fld.2) with
          | none =>
            (Except.error (TErr.panic ("bad field selector type in `visit_fselector()`")), σ)
          | some fieldTy =>
            (Except.ok (Node.mk (NKind.fselector chkdComp field (some fieldTy))), σ)
      | _ => (Except.error (TErr.panic ("expected symbol to be a struct")), σ)

/-- `Tych::visit_mselector` (src/crates/tych/src/lib.rs:674-697): check the
receiver, require the method in the struct symbol, delegate to `visit_call`
under the mangled name `_<Struct>_<method>` with the argument list unchanged,
un-mangle the name in delegated error messages, and repackage the checked
call as an `MSelector` node. -/
def visitMSelector : Nat → Node → String → List Node → Option Ty → TychState → TRes Node
  | 0, _, _, _, _, σ => (Except.error TErr.fuel, σ)
  | f + 1, comp, methodName, args, ty, σ =>
    bindE (checkNode f comp none σ) fun chkdComp σ =>
    match getCompositeSymbol σ chkdComp.ty with
    | Except.error e => (Except.error e, σ)
    | Except.ok compSym =>
      match compSym.data with
      | AssocData.structD d =>
        if ¬ (d.methods.getD []).contains methodName then
          (Except.error (TErr.err
            ("composite `" ++ compSym.name ++ "` has no method: `" ++ methodName ++ "`")), σ)
        else
          let cooked := "_" ++ compSym.name ++ "_" ++ methodName
          match visitCall f cooked args ty σ with
          | (Except.error (TErr.err e), σ') =>
            -- do not use the cooked name for errors
            (Except.error (TErr.err
              (e.replace cooked (compSym.name ++ "." ++ methodName))), σ')
          | (Except.error e, σ') => (Except.error e, σ')
          | (Except.ok chkdCall, σ') =>
            match chkdCall.kind with
            | NKind.call nm as t =>
              (Except.ok (Node.mk (NKind.mselector chkdComp nm as t)), σ')
            | _ =>
              (Except.error (TErr.panic ("unknown node kind in `visit_mselector()`")), σ')
      | _ => (Except.error (TErr.panic ("expected symbol to be a struct")), σ)

end

/-- `Tych::walk` (src/crates/tych/src/lib.rs:37-44): visit every top-level
node, first error aborts. -/
def tychWalk : Nat → List Node → TychState → TRes (List Node)
  | 0, _, σ => (Except.error TErr.fuel, σ)
  | _ + 1, [], σ => (Except.ok [], σ)
  | f + 1, n :: rest, σ =>
    bindE (visitNode f n σ) fun chkd σ =>
    bindE (tychWalk f rest σ) fun chkds σ =>
    (Except.ok (chkd :: chkds), σ)

end Light

namespace Light

/-! ## Helper lemmas and shared fixtures -/

/-- A minimal checker state: empty symbol table at depth 0, the primitive
type registry, module `main`, no hint. -/
def baseState : TychState := ⟨⟨[], []⟩, dumpTypes, none, none, "main"⟩

@[simp] theorem depth_enter (σ : TychState) : σ.enter.depth = σ.depth + 1 := rfl

@[simp] theorem depth_insertSym (σ : TychState) (s : Symbol) :
    (σ.insertSym s).depth = σ.depth := by
  unfold TychState.insertSym TychState.depth SymbolTable.insert SymbolTable.insertWithName
  cases h : σ.symbolTable.stack <;> simp [SymbolTable.scopeDepth, h]

@[simp] theorem depth_insertWithName (σ : TychState) (name : String) (s : Symbol) :
    (σ.insertWithName name s).depth = σ.depth := by
  unfold TychState.insertWithName TychState.depth SymbolTable.insertWithName
  cases h : σ.symbolTable.stack <;> simp [SymbolTable.scopeDepth, h]

@[simp] theorem depth_leave (σ : TychState) : σ.leave.depth = σ.depth - 1 := by
  unfold TychState.leave TychState.depth SymbolTable.leaveScope
  cases h : σ.symbolTable.stack <;> simp [SymbolTable.scopeDepth, h]

@[simp] theorem depth_withHint (σ : TychState) (h : Option Ty) :
    ({ σ with hint := h } : TychState).depth = σ.depth := rfl

@[simp] theorem depth_withStruct (σ : TychState) (c : Option String) :
    ({ σ with currentStruct := c } : TychState).depth = σ.depth := rfl

theorem visitFnArgs_depth (pn : String) (args : List (String × Ty)) (σ : TychState) :
    (visitFnArgs pn args σ).2.depth = σ.depth := by
  induction args generalizing σ with
  | nil => rfl
  | cons a rest ih =>
    unfold visitFnArgs
    split
    · rfl
    · rename_i t1 _
      rcases h : visitFnArgs pn rest (σ.insertSym (Symbol.newVar a.1 t1 σ.module)) with ⟨r, σ'⟩
      have := ih (σ := σ.insertSym (Symbol.newVar a.1 t1 σ.module))
      rw [h] at this
      cases r <;> simp [h, this]

theorem visitLit_scalar_eq (f : Nat) (σ : TychState) (v : LitV) (ty : Option Ty)
    (hne : ∀ el ity, v ≠ LitV.array el ity) :
    visitLit (f + 1) v ty σ = (visitLitScalar v σ.hint, σ) := by
  cases v <;> first | rfl | exact absurd rfl (hne _ _)

/-! ## Claim C7 -/

/-- Claim C7: an integer numeric literal checked with no type hint has type
`Int32` when its value fits in a 32-bit signed integer and is an
out-of-range error otherwise; a float literal with no hint has type
`Float`. -/
theorem claim_C7_unhinted_literal_defaults (f : Nat) (σ : TychState)
    (hh : σ.hint = none) (v bits : Nat) :
    visitLit (f + 1) (LitV.uint64 v) none σ =
      (if v ≤ 2147483647 then
        (Except.ok (Node.mk (NKind.lit (LitV.int32 (v : Int)) (some Ty.int32))), σ)
      else (Except.error (TErr.err ("Numeric literal out of range")), σ))
    ∧ visitLit (f + 1) (LitV.float bits) none σ =
      (Except.ok (Node.mk (NKind.lit (LitV.float bits) (some Ty.float))), σ) := by
  rw [visitLit_scalar_eq f σ _ none (by intro el ity h; cases h),
      visitLit_scalar_eq f σ _ none (by intro el ity h; cases h), hh]
  constructor
  · simp only [visitLitScalar]
    split <;> simp_all
  · rfl

/-- Witness for C7 at the boundary: `i32::MAX` types as `Int32`,
`i32::MAX + 1` is rejected. -/
theorem claim_C7_witness :
    visitLit 1 (LitV.uint64 2147483647) none baseState =
      (Except.ok (Node.mk (NKind.lit (LitV.int32 2147483647) (some Ty.int32))), baseState)
    ∧ visitLit 1 (LitV.uint64 2147483648) none baseState =
      (Except.error (TErr.err ("Numeric literal out of range")), baseState) := by
  have h1 := (claim_C7_unhinted_literal_defaults 0 baseState rfl 2147483647 0).1
  have h2 := (claim_C7_unhinted_literal_defaults 0 baseState rfl 2147483648 0).1
  norm_num at h1 h2
  exact ⟨h1, h2⟩

/-! ## Claim C6 -/

/-- Spec-side: the largest `u64` value that fits each hinted integer width
(claim C6's "overflows that width"). -/
def intHintMax : Ty → Option Nat
  | Ty.int8 => some 127
  | Ty.int16 => some 32767
  | Ty.int32 => some 2147483647
  | Ty.int64 => some 9223372036854775807
  | Ty.uint8 => some 255
  | Ty.uint16 => some 65535
  | Ty.uint32 => some 4294967295
  | Ty.uint64 => some (USIZE - 1)
  | _ => none

/-- Spec-side: the payload of the literal after narrowing to the hinted
integer width. -/
def narrowedLit : Ty → Nat → Option LitV
  | Ty.int8, v => some (LitV.int8 (v : Int))
  | Ty.int16, v => some (LitV.int16 (v : Int))
  | Ty.int32, v => some (LitV.int32 (v : Int))
  | Ty.int64, v => some (LitV.int64 (v : Int))
  | Ty.uint8, v => some (LitV.uint8 v)
  | Ty.uint16, v => some (LitV.uint16 v)
  | Ty.uint32, v => some (LitV.uint32 v)
  | Ty.uint64, v => some (LitV.uint64 v)
  | _, _ => none

/-- Claim C6: an integer numeric literal (a parsed `UInt64` payload, spec
section 4.3) under an integer hint is narrowed to the hinted width with an
error exactly on overflow; an integer literal under a float hint is an
error, a float literal under an integer hint is an error, and a bool or
char hint is an error against both kinds of numeric literal (integer and
float). -/
theorem claim_C6_hinted_literal_narrowing (f : Nat) (σ : TychState) (h : Ty)
    (hh : σ.hint = some h) (v bits : Nat) (hv : v < USIZE) :
    (∀ m l, intHintMax h = some m → narrowedLit h v = some l →
      visitLit (f + 1) (LitV.uint64 v) none σ =
        if v ≤ m then (Except.ok (Node.mk (NKind.lit l (some h))), σ)
        else (Except.error (TErr.err ("Numeric literal out of range")), σ))
    ∧ (h = Ty.float ∨ h = Ty.double →
      visitLit (f + 1) (LitV.uint64 v) none σ =
        (Except.error (TErr.err ("Literal is an integer in a float context")), σ))
    ∧ (h = Ty.bool →
      visitLit (f + 1) (LitV.uint64 v) none σ =
        (Except.error (TErr.err ("Literal is an integer in a bool context")), σ))
    ∧ (h = Ty.char →
      visitLit (f + 1) (LitV.uint64 v) none σ =
        (Except.error (TErr.err ("Literal is an integer in a char context")), σ))
    ∧ (h.isInt = true →
      visitLit (f + 1) (LitV.float bits) none σ =
        (Except.error (TErr.err ("Literal is a float in an integer context")), σ))
    ∧ (h = Ty.bool →
      visitLit (f + 1) (LitV.float bits) none σ =
        (Except.error (TErr.err ("Literal is a float in a bool context")), σ))
    ∧ (h = Ty.char →
      visitLit (f + 1) (LitV.float bits) none σ =
        (Except.error (TErr.err ("Literal is a float in a char context")), σ)) := by
  rw [visitLit_scalar_eq f σ (LitV.uint64 v) none (by intro el ity hx; cases hx),
      visitLit_scalar_eq f σ (LitV.float bits) none (by intro el ity hx; cases hx), hh]
  refine ⟨?_, ?_, ?_, ?_, ?_, ?_, ?_⟩
  · intro m l hm hl
    cases h <;> simp [intHintMax, narrowedLit] at hm hl <;> subst hm <;> subst hl <;>
      simp only [visitLitScalar, convertNumU64] <;>
      split_ifs with hc <;>
      first
      | rfl
      | (exfalso; simp [USIZE] at hv hc; omega)
  · rintro (rfl | rfl) <;> rfl
  · rintro rfl; rfl
  · rintro rfl; rfl
  · intro hi
    cases h <;> first | rfl | (simp [Ty.isInt] at hi)
  · rintro rfl; rfl
  · rintro rfl; rfl

/-- Witness for C6: `300` under an `int8` hint overflows; `100` under an
`int8` hint narrows; `100` under a `bool` hint errs; a float literal under
a `bool` hint and under a `char` hint errs. -/
theorem claim_C6_witness :
    visitLit 1 (LitV.uint64 300) none { baseState with hint := some Ty.int8 } =
      (Except.error (TErr.err ("Numeric literal out of range")),
        { baseState with hint := some Ty.int8 })
    ∧ visitLit 1 (LitV.uint64 100) none { baseState with hint := some Ty.int8 } =
      (Except.ok (Node.mk (NKind.lit (LitV.int8 100) (some Ty.int8))),
        { baseState with hint := some Ty.int8 })
    ∧ visitLit 1 (LitV.uint64 100) none { baseState with hint := some Ty.bool } =
      (Except.error (TErr.err ("Literal is an integer in a bool context")),
        { baseState with hint := some Ty.bool })
    ∧ visitLit 1 (LitV.float 0) none { baseState with hint := some Ty.bool } =
      (Except.error (TErr.err ("Literal is a float in a bool context")),
        { baseState with hint := some Ty.bool })
    ∧ visitLit 1 (LitV.float 0) none { baseState with hint := some Ty.char } =
      (Except.error (TErr.err ("Literal is a float in a char context")),
        { baseState with hint := some Ty.char }) := by
  have h1 := (claim_C6_hinted_literal_narrowing 0 { baseState with hint := some Ty.int8 }
    Ty.int8 rfl 300 0 (by norm_num [USIZE])).1 127 (LitV.int8 300) rfl rfl
  have h2 := (claim_C6_hinted_literal_narrowing 0 { baseState with hint := some Ty.int8 }
    Ty.int8 rfl 100 0 (by norm_num [USIZE])).1 127 (LitV.int8 100) rfl rfl
  have h3 := (claim_C6_hinted_literal_narrowing 0 { baseState with hint := some Ty.bool }
    Ty.bool rfl 100 0 (by norm_num [USIZE])).2.2.1 rfl
  have h4 := (claim_C6_hinted_literal_narrowing 0 { baseState with hint := some Ty.bool }
    Ty.bool rfl 100 0 (by norm_num [USIZE])).2.2.2.2.2.1 rfl
  have h5 := (claim_C6_hinted_literal_narrowing 0 { baseState with hint := some Ty.char }
    Ty.char rfl 100 0 (by norm_num [USIZE])).2.2.2.2.2.2 rfl
  norm_num at h1 h2
  exact ⟨h1, h2, h3, h4, h5⟩

/-! ## Claim C3 -/

theorem binopType_assign_void {op : Op} {a b : Ty} {t : Ty}
    (hop : op = Op.assign ∨ op = Op.addEq ∨ op = Op.subEq ∨ op = Op.mulEq ∨ op = Op.divEq)
    (h : binopType op a b = Except.ok t) : t = Ty.void := by
  rcases hop with rfl | rfl | rfl | rfl | rfl <;>
    (unfold binopType at h; split at h
     · simp at h
     · simp at h; exact h.symm)

theorem visitBinop_ok_shape {f : Nat} {op : Op} {lhs rhs : Node} {ty : Option Ty}
    {σ : TychState} {n : Node} {σ' : TychState}
    (h : visitBinop f op lhs rhs ty σ = (Except.ok n, σ')) :
    ∃ l r t, n = Node.mk (NKind.binop op l r (some t))
      ∧ ∃ a b, binopType op a b = Except.ok t := by
  cases f with
  | zero => simp [visitBinop] at h
  | succ f =>
    unfold visitBinop at h
    split at h
    · simp at h
    · split at h
      · rcases h1 : checkNode f rhs none σ with ⟨r1, σ1⟩
        rw [h1] at h
        cases r1 with
        | error e => simp [bindE] at h
        | ok chkdRhs =>
          simp only [bindE_ok] at h
          rcases h2 : checkNode f lhs (some (chkdRhs.ty.getD Ty.void)) σ1 with ⟨r2, σ2⟩
          rw [h2] at h
          cases r2 with
          | error e => simp [bindE] at h
          | ok chkdLhs =>
            simp only [bindE_ok] at h
            split at h
            · simp at h
            · rename_i t hbt
              simp only [Prod.mk.injEq, Except.ok.injEq] at h
              exact ⟨chkdLhs, chkdRhs, t, h.1.symm, _, _, hbt⟩
      · rcases h1 : checkNode f lhs none σ with ⟨r1, σ1⟩
        rw [h1] at h
        cases r1 with
        | error e => simp [bindE] at h
        | ok chkdLhs =>
          simp only [bindE_ok] at h
          rcases h2 : checkNode f rhs (some (chkdLhs.ty.getD Ty.void)) σ1 with ⟨r2, σ2⟩
          rw [h2] at h
          cases r2 with
          | error e => simp [bindE] at h
          | ok chkdRhs =>
            simp only [bindE_ok] at h
            split at h
            · simp at h
            · rename_i t hbt
              simp only [Prod.mk.injEq, Except.ok.injEq] at h
              exact ⟨chkdLhs, chkdRhs, t, h.1.symm, _, _, hbt⟩

/-- Claim C3 (amended): only the plain `=` operator is checked for an
`Ident`/`Index`/`FSelector` left-hand side — a compound-assignment operator
reaching `visit_binop` gets no such check — and any assignment-family binop
that is accepted has result type `Void`. -/
theorem claim_C3_assignment_checking :
    (∀ (f : Nat) (σ : TychState) (lhs rhs : Node) (ty : Option Ty),
      isAssignTarget lhs = false →
      visitBinop (f + 1) Op.assign lhs rhs ty σ =
        (Except.error (TErr.err ("Expected LHS to be a variable for assignment")), σ))
    ∧ (∀ (f : Nat) (σ : TychState) (op : Op) (lhs rhs : Node) (ty : Option Ty)
        (n : Node) (σ' : TychState),
      (op = Op.assign ∨ op = Op.addEq ∨ op = Op.subEq ∨ op = Op.mulEq ∨ op = Op.divEq) →
      visitBinop f op lhs rhs ty σ = (Except.ok n, σ') → n.ty = some Ty.void) := by
  constructor
  · intro f σ lhs rhs ty h
    unfold visitBinop
    rw [if_pos ⟨rfl, by simp [h]⟩]
  · intro f σ op lhs rhs ty n σ' hop hok
    obtain ⟨l, r, t, hn, a, b, hbt⟩ := visitBinop_ok_shape hok
    subst hn
    rw [binopType_assign_void hop hbt]
    rfl

/-- Counterexample to C3 as stated: the compound assignment `3 += 4`, whose
LHS is a literal (not an `Ident`, `Index` or `FSelector`), is accepted by
`visit_binop` with result type `Void` instead of being rejected. -/
theorem claim_C3_counterexample :
    visitBinop 4 Op.addEq (Node.mk (NKind.lit (LitV.uint64 3) none))
        (Node.mk (NKind.lit (LitV.uint64 4) none)) none baseState =
      (Except.ok (Node.mk (NKind.binop Op.addEq
        (Node.mk (NKind.lit (LitV.int32 3) (some Ty.int32)))
        (Node.mk (NKind.lit (LitV.int32 4) (some Ty.int32)))
        (some Ty.void))), { baseState with hint := some Ty.int32 }) := rfl

/-- Witness for C3: `=` with a literal LHS is rejected; the accepted
`3 += 4` has type `Void`. -/
theorem claim_C3_witness :
    visitBinop 1 Op.assign (Node.mk (NKind.lit (LitV.uint64 3) none))
        (Node.mk (NKind.lit (LitV.uint64 4) none)) none baseState =
      (Except.error (TErr.err ("Expected LHS to be a variable for assignment")), baseState)
    ∧ (Node.mk (NKind.binop Op.addEq
        (Node.mk (NKind.lit (LitV.int32 3) (some Ty.int32)))
        (Node.mk (NKind.lit (LitV.int32 4) (some Ty.int32)))
        (some Ty.void))).ty = some Ty.void := by
  constructor
  · exact claim_C3_assignment_checking.1 0 baseState _ _ none rfl
  · exact claim_C3_assignment_checking.2 4 baseState Op.addEq
      (Node.mk (NKind.lit (LitV.uint64 3) none)) (Node.mk (NKind.lit (LitV.uint64 4) none))
      none _ { baseState with hint := some Ty.int32 } (Or.inr (Or.inl rfl)) rfl

/-! ## Claim C8 -/

theorem visitFnFinish_ok_shape {fnEntry : Symbol} {retTy bodyTy : Ty} {bodyNode : Node}
    {proto2 : Proto} {σ : TychState} {n : Node} {σ' : TychState}
    (h : visitFnFinish fnEntry retTy bodyTy bodyNode proto2 σ = (Except.ok n, σ')) :
    n = Node.mk (NKind.fnKind proto2 (some bodyNode)) := by
  unfold visitFnFinish at h
  split at h
  · split at h <;> simp at h
  · simp only [Prod.mk.injEq, Except.ok.injEq] at h
    exact h.1.symm

theorem visitFnMain_ok_main {fnEntry : Symbol} {retTy bodyTy : Ty} {bodyNode : Node}
    {proto1 : Proto} {σ : TychState} {n : Node} {σ' : TychState}
    (hname : proto1.name = "main")
    (h : visitFnMain fnEntry retTy bodyTy bodyNode proto1 σ = (Except.ok n, σ')) :
    ∃ p b, n = Node.mk (NKind.fnKind p (some b)) ∧ p.retTy = Ty.void := by
  unfold visitFnMain at h
  rw [if_pos hname] at h
  split at h
  · simp at h
  · exact ⟨_, _, visitFnFinish_ok_shape h, rfl⟩

/-- Claim C8 (amended): for a function definition named `main` that carries
a body, a resolved non-void return-type annotation is rejected — no run with
such an annotation is ever accepted, and once the argument and body checks
succeed the result is exactly the "main()'s return value shouldn't be
annotated" error — and when such a `main` passes the checker its prototype's
return type is `Void`; an `extern` declaration named `main` (no body),
however, returns with its prototype — and hence a non-void annotation —
unchanged. -/
theorem claim_C8_main_return_type :
    (∀ (f : Nat) (proto : Proto) (body : Node) (σ : TychState) (n : Node) (σ' : TychState),
      proto.name = "main" →
      visitFn f proto (some body) σ = (Except.ok n, σ') →
      ∃ p b, n = Node.mk (NKind.fnKind p (some b)) ∧ p.retTy = Ty.void)
    ∧ (∀ (f : Nat) (proto : Proto) (σ : TychState) (s : Symbol) (rt : Ty),
      σ.symbolTable.get proto.name = some s →
      resolveType σ proto.retTy = some rt →
      visitFn (f + 1) proto none σ = (Except.ok (Node.mk (NKind.fnKind proto none)), σ))
    ∧ (∀ (f : Nat) (proto : Proto) (body : Node) (σ : TychState) (rt : Ty)
        (n : Node) (σ' : TychState),
      proto.name = "main" →
      resolveType σ proto.retTy = some rt →
      rt ≠ Ty.void →
      visitFn f proto (some body) σ ≠ (Except.ok n, σ'))
    ∧ (∀ (g : Nat) (proto : Proto) (body : Node) (σ : TychState) (rt : Ty)
        (fnEntry : Symbol) (resolvedArgs : List (String × Ty)) (σ2 σ3 : TychState)
        (bodyNode : Node),
      proto.name = "main" →
      σ.symbolTable.get proto.name = some fnEntry →
      resolveType σ proto.retTy = some rt →
      rt ≠ Ty.void →
      visitFnArgs proto.name proto.args (selfInserted σ.enter) = (Except.ok resolvedArgs, σ2) →
      checkNode g body none σ2 = (Except.ok bodyNode, σ3) →
      visitFn (g + 1 + 1) proto (some body) σ =
        (Except.error (TErr.err
          ("main()'s return value shouldn't be annotated. Found `" ++ rt.toStr ++ "`")), σ3)) := by
  refine ⟨?_, ?_, ?_, ?_⟩
  · intro f proto body σ n σ' hname hok
    cases f with
    | zero => simp [visitFn] at hok
    | succ f =>
      unfold visitFn at hok
      split at hok
      · simp at hok
      · split at hok
        · simp at hok
        · cases f with
          | zero => simp [visitFnBody] at hok
          | succ g =>
            unfold visitFnBody at hok
            split at hok
            · simp at hok
            · rename_i resolvedArgs σ2 hargs
              rcases hb : checkNode g body none σ2 with ⟨rb, σ3⟩
              rw [hb] at hok
              cases rb with
              | error e => simp [bindE] at hok
              | ok bodyNode =>
                simp only [bindE_ok] at hok
                exact visitFnMain_ok_main
                  (show ({ proto with args := resolvedArgs } : Proto).name = "main" from hname)
                  hok
  · intro f proto σ s rt hs hrt
    unfold visitFn
    rw [hs, hrt]
  · intro f proto body σ rt n σ' hname hrt hne hok
    cases f with
    | zero => simp [visitFn] at hok
    | succ f =>
      unfold visitFn at hok
      split at hok
      · simp at hok
      · rename_i fnEntry hget
        split at hok
        · simp at hok
        · rename_i rt2 hrt2
          rw [hrt] at hrt2
          injection hrt2 with hrt2
          subst hrt2
          cases f with
          | zero => simp [visitFnBody] at hok
          | succ g =>
            unfold visitFnBody at hok
            split at hok
            · simp at hok
            · rename_i resolvedArgs σ2 hargs
              rcases hb : checkNode g body none σ2 with ⟨rb, σ3⟩
              rw [hb] at hok
              cases rb with
              | error e => simp [bindE] at hok
              | ok bodyNode =>
                simp only [bindE_ok] at hok
                unfold visitFnMain at hok
                rw [if_pos (show ({ proto with args := resolvedArgs } : Proto).name = "main"
                      from hname),
                    if_pos hne] at hok
                simp at hok
  · intro g proto body σ rt fnEntry resolvedArgs σ2 σ3 bodyNode
      hname hget hrt hne hargs hbody
    unfold visitFn
    rw [hget, hrt]
    show visitFnBody (g + 1) fnEntry rt proto body σ = _
    unfold visitFnBody
    rw [hargs]
    show bindE (checkNode g body none σ2) (fun bodyNode σ3 =>
      visitFnMain fnEntry rt (bodyNode.ty.getD Ty.void) bodyNode
        { proto with args := resolvedArgs } σ3) = _
    rw [hbody]
    simp only [bindE_ok]
    show visitFnMain fnEntry rt (bodyNode.ty.getD Ty.void) bodyNode
      { proto with args := resolvedArgs } σ3 = _
    unfold visitFnMain
    rw [if_pos (show ({ proto with args := resolvedArgs } : Proto).name = "main" from hname),
        if_pos hne]

/-- Counterexample to C8 as stated: `extern fn main() -> int` passes
`visit_fn` with its prototype's return type left as `Int32`, not `Void`. -/
theorem claim_C8_counterexample :
    visitFn 1 ⟨"main", [], Ty.int32⟩ none
        ⟨⟨[("main", Symbol.newFn ("main") ("main~int32") [] Ty.int32 false ("main") false)], []⟩,
          dumpTypes, none, none, "main"⟩ =
      (Except.ok (Node.mk (NKind.fnKind ⟨"main", [], Ty.int32⟩ none)),
        ⟨⟨[("main", Symbol.newFn ("main") ("main~int32") [] Ty.int32 false ("main") false)], []⟩,
          dumpTypes, none, none, "main"⟩)
    ∧ Ty.int32 ≠ Ty.void := ⟨rfl, by decide⟩

/-- Witness for C8: a concrete `fn main() { 1 }` run passes and its checked
prototype has return type `Void`, and the concrete `fn main() -> int32 { 1 }`
is rejected with the annotation error. -/
theorem claim_C8_witness :
    (∃ p b,
      Node.mk (NKind.fnKind ⟨"main", [], Ty.void⟩
        (some (Node.mk (NKind.block
          [Node.mk (NKind.lit (LitV.int32 1) (some Ty.int32))] (some Ty.int32))))) =
        Node.mk (NKind.fnKind p (some b)) ∧ p.retTy = Ty.void)
    ∧ visitFn 5 ⟨"main", [], Ty.int32⟩ (some (Node.mk (NKind.lit (LitV.uint64 1) none)))
        ⟨⟨[("main", Symbol.newFn ("main") ("main~int32") [] Ty.int32 false ("main") false)], []⟩,
          dumpTypes, none, none, "main"⟩ =
      (Except.error (TErr.err
        ("main()'s return value shouldn't be annotated. Found `int32`")),
        ⟨⟨[("main", Symbol.newFn ("main") ("main~int32") [] Ty.int32 false ("main") false)], [[]]⟩,
          dumpTypes, none, none, "main"⟩) := by
  constructor
  · refine claim_C8_main_return_type.1 20 ⟨"main", [], Ty.void⟩
      (Node.mk (NKind.block [Node.mk (NKind.lit (LitV.uint64 1) none)] none))
      ⟨⟨[("main", Symbol.newFn ("main") ("main~void") [] Ty.void false ("main") false)], []⟩,
        dumpTypes, none, none, "main"⟩ _
      ⟨⟨[("main", Symbol.fromProto ⟨"main", [], Ty.void⟩),
         ("main", Symbol.newFn ("main") ("main~void") [] Ty.void false ("main") false)], []⟩,
        dumpTypes, none, none, "main"⟩ rfl rfl
  · exact claim_C8_main_return_type.2.2.2 3 ⟨"main", [], Ty.int32⟩
      (Node.mk (NKind.lit (LitV.uint64 1) none))
      ⟨⟨[("main", Symbol.newFn ("main") ("main~int32") [] Ty.int32 false ("main") false)], []⟩,
        dumpTypes, none, none, "main"⟩
      Ty.int32
      (Symbol.newFn ("main") ("main~int32") [] Ty.int32 false ("main") false) []
      ⟨⟨[("main", Symbol.newFn ("main") ("main~int32") [] Ty.int32 false ("main") false)], [[]]⟩,
        dumpTypes, none, none, "main"⟩
      ⟨⟨[("main", Symbol.newFn ("main") ("main~int32") [] Ty.int32 false ("main") false)], [[]]⟩,
        dumpTypes, none, none, "main"⟩
      (Node.mk (NKind.lit (LitV.int32 1) (some Ty.int32)))
      rfl rfl rfl (by decide) rfl rfl

/-! ## Claim C1 -/

/-- Claim C1 (amended): detected type errors are returned as `Err` values,
but the cases the claim singles out abort with Rust panics instead: an array
literal checked with no type hint panics in `ty_hint.unwrap()`, an array
literal under a non-array hint panics in an `unreachable!`, and an
identifier bound to a function or struct symbol panics in `Symbol::ty`. -/
theorem claim_C1_internal_panics :
    (∀ (f : Nat) (σ : TychState) (elems : List Node) (ity : Option Ty) (ty : Option Ty),
      σ.hint = none →
      visitLit (f + 2) (LitV.array elems ity) ty σ =
        (Except.error (TErr.panic ("called `Option::unwrap()` on a `None` value")), σ))
    ∧ (∀ (f : Nat) (σ : TychState) (elems : List Node) (ity : Option Ty) (ty : Option Ty)
        (h : Ty), σ.hint = some h → (∀ t n, h ≠ Ty.sarray t n) →
      visitLit (f + 2) (LitV.array elems ity) ty σ =
        (Except.error (TErr.panic
          ("array literal has invalid type hint `" ++ h.toStr ++ "`")), σ))
    ∧ (∀ (f : Nat) (σ : TychState) (name : String) (ty : Option Ty) (sym : Symbol),
      σ.symbolTable.get name = some sym →
      ((∃ d, sym.data = AssocData.fnD d) ∨ (∃ d, sym.data = AssocData.structD d)) →
      visitIdent (f + 1) name ty σ =
        (Except.error (TErr.panic ("expected symbol to be a variable")), σ)) := by
  refine ⟨?_, ?_, ?_⟩
  · intro f σ elems ity ty hh
    unfold visitLit
    rw [hh]
    rfl
  · intro f σ elems ity ty h hh hns
    unfold visitLit
    rw [hh]
    cases h <;> first | rfl | exact absurd rfl (hns _ _)
  · intro f σ name ty sym hget hd
    show (match σ.symbolTable.get name with
      | none => (Except.error (TErr.err ("Unknown variable: `" ++ name ++ "`")), σ)
      | some sym =>
        match sym.tyAcc with
        | Except.ok identTy => (Except.ok (Node.mk (NKind.ident name (some identTy))), σ)
        | Except.error e => (Except.error e, σ)) = _
    rw [hget]
    rcases hd with ⟨d, hd⟩ | ⟨d, hd⟩ <;> simp [Symbol.tyAcc, hd]

/-- Counterexample to C1 as stated: at concrete inputs, the three singled-out
situations abort with a panic value, not with an `Err`. -/
theorem claim_C1_counterexample :
    visitLit 2 (LitV.array [] none) none baseState =
      (Except.error (TErr.panic ("called `Option::unwrap()` on a `None` value")), baseState)
    ∧ visitLit 2 (LitV.array [] none) none { baseState with hint := some Ty.int32 } =
      (Except.error (TErr.panic ("array literal has invalid type hint `int32`")),
        { baseState with hint := some Ty.int32 })
    ∧ visitIdent 1 "f" none
        ⟨⟨[("f", Symbol.newFn ("f") ("f~void") [] Ty.void false ("main") false)], []⟩,
          dumpTypes, none, none, "main"⟩ =
      (Except.error (TErr.panic ("expected symbol to be a variable")),
        ⟨⟨[("f", Symbol.newFn ("f") ("f~void") [] Ty.void false ("main") false)], []⟩,
          dumpTypes, none, none, "main"⟩) := ⟨rfl, rfl, rfl⟩

/-- Witness for C1: the amended panic behaviour at the concrete inputs of the
counterexample, via the amended theorem. -/
theorem claim_C1_witness :
    visitLit 2 (LitV.array [] none) none baseState =
      (Except.error (TErr.panic ("called `Option::unwrap()` on a `None` value")), baseState)
    ∧ visitIdent 1 "x" none
        ⟨⟨[("x", Symbol.newStruct ("x") none none ("main") true)], []⟩,
          dumpTypes, none, none, "main"⟩ =
      (Except.error (TErr.panic ("expected symbol to be a variable")),
        ⟨⟨[("x", Symbol.newStruct ("x") none none ("main") true)], []⟩,
          dumpTypes, none, none, "main"⟩) := by
  constructor
  · exact claim_C1_internal_panics.1 0 baseState [] none none rfl
  · exact claim_C1_internal_panics.2.2 0 _ "x" none
      (Symbol.newStruct ("x") none none ("main") true) rfl (Or.inr ⟨_, rfl⟩)

/-! ## Claim C9 -/

theorem binop_add_lits (g : Nat) (σ : TychState) (ty : Option Ty) (v1 v2 : Nat)
    (h1 : v1 ≤ 2147483647) (h2 : v2 ≤ 2147483647) :
    visitBinop (g + 4) Op.add (Node.mk (NKind.lit (LitV.uint64 v1) none))
        (Node.mk (NKind.lit (LitV.uint64 v2) none)) ty σ =
      (Except.ok (Node.mk (NKind.binop Op.add
        (Node.mk (NKind.lit (LitV.int32 (v1 : Int)) (some Ty.int32)))
        (Node.mk (NKind.lit (LitV.int32 (v2 : Int)) (some Ty.int32)))
        (some Ty.int32))), { σ with hint := some Ty.int32 }) := by
  unfold visitBinop
  rw [if_neg (by simp)]
  rw [if_pos (by rfl)]
  rw [show checkNode (g + 3) (Node.mk (NKind.lit (LitV.uint64 v2) none)) none σ =
    (visitLitScalar (LitV.uint64 v2) none, { σ with hint := (none : Option Ty) }) from rfl]
  simp only [visitLitScalar, if_pos h2, bindE_ok]
  rw [show checkNode (g + 3) (Node.mk (NKind.lit (LitV.uint64 v1) none))
      (some ((Node.mk (NKind.lit (LitV.int32 (v2 : Int)) (some Ty.int32))).ty.getD Ty.void))
      { σ with hint := (none : Option Ty) } =
    (visitLitScalar (LitV.uint64 v1) (some Ty.int32),
      { σ with hint := some Ty.int32 }) from rfl]
  simp only [visitLitScalar, convertNumU64, if_pos h1, bindE_ok]
  rfl

/-- Claim C9: `visit_binop` does not propagate the surrounding hint into its
operands — its result value is independent of the incoming hint — so a
binary expression over two integer literals always types as `Int32`, and a
variable initialisation with any other annotation (for example
`let x: int8 = 1 + 2`) is rejected with a type mismatch. -/
theorem claim_C9_binop_hint_isolation :
    (∀ (f : Nat) (op : Op) (lhs rhs : Node) (ty : Option Ty) (σ : TychState) (h : Option Ty),
      (visitBinop f op lhs rhs ty { σ with hint := h }).1 = (visitBinop f op lhs rhs ty σ).1)
    ∧ (∀ (g : Nat) (σ : TychState) (ty : Option Ty) (v1 v2 : Nat),
      v1 ≤ 2147483647 → v2 ≤ 2147483647 →
      visitBinop (g + 4) Op.add (Node.mk (NKind.lit (LitV.uint64 v1) none))
          (Node.mk (NKind.lit (LitV.uint64 v2) none)) ty σ =
        (Except.ok (Node.mk (NKind.binop Op.add
          (Node.mk (NKind.lit (LitV.int32 (v1 : Int)) (some Ty.int32)))
          (Node.mk (NKind.lit (LitV.int32 (v2 : Int)) (some Ty.int32)))
          (some Ty.int32))), { σ with hint := some Ty.int32 }))
    ∧ (∀ (g : Nat) (σ : TychState) (name : String) (antn : Ty),
      antn.isInt = true → antn ≠ Ty.int32 →
      checkVarInit (g + 7) name
          (some (Node.mk (NKind.binop Op.add (Node.mk (NKind.lit (LitV.uint64 1) none))
            (Node.mk (NKind.lit (LitV.uint64 2) none)) none)))
          antn ("let statement") σ =
        (Except.error (TErr.err
          ("Types don't match in let statement. `" ++ name ++ "` annotated with `"
            ++ antn.toStr ++ "` but initial value is `int32`")),
          { σ with hint := some Ty.int32 })) := by
  refine ⟨?_, ?_, ?_⟩
  · intro f op lhs rhs ty σ h
    cases f with
    | zero => rfl
    | succ f =>
      unfold visitBinop
      by_cases hA : (op = Op.assign ∧ ¬ isAssignTarget lhs)
      · rw [if_pos hA, if_pos hA]
      · rw [if_neg hA, if_neg hA]
        cases f with
        | zero => by_cases hL : (lhs.isNumLiteral : Bool) <;> simp [hL, checkNode, bindE]
        | succ g =>
          by_cases hL : (lhs.isNumLiteral : Bool)
          · rw [if_pos hL, if_pos hL,
              show checkNode (g + 1) rhs none { σ with hint := h } =
                checkNode (g + 1) rhs none σ from rfl]
          · rw [if_neg hL, if_neg hL,
              show checkNode (g + 1) lhs none { σ with hint := h } =
                checkNode (g + 1) lhs none σ from rfl]
  · intro g σ ty v1 v2 h1 h2
    exact binop_add_lits g σ ty v1 v2 h1 h2
  · intro g σ name antn hint hne
    have hcn : checkNode (g + 6)
        (Node.mk (NKind.binop Op.add (Node.mk (NKind.lit (LitV.uint64 1) none))
          (Node.mk (NKind.lit (LitV.uint64 2) none)) none)) (some antn) σ =
        (Except.ok (Node.mk (NKind.binop Op.add
          (Node.mk (NKind.lit (LitV.int32 1) (some Ty.int32)))
          (Node.mk (NKind.lit (LitV.int32 2) (some Ty.int32)))
          (some Ty.int32))), { σ with hint := some Ty.int32 }) := by
      rw [show checkNode (g + 6)
          (Node.mk (NKind.binop Op.add (Node.mk (NKind.lit (LitV.uint64 1) none))
            (Node.mk (NKind.lit (LitV.uint64 2) none)) none)) (some antn) σ =
        visitBinop (g + 4) Op.add (Node.mk (NKind.lit (LitV.uint64 1) none))
          (Node.mk (NKind.lit (LitV.uint64 2) none)) none
          { σ with hint := some antn } from rfl]
      exact binop_add_lits g { σ with hint := some antn } none 1 2
        (by norm_num) (by norm_num)
    unfold checkVarInit
    simp only [hcn, bindE_ok]
    rw [if_pos (by simpa [Node.ty, Node.kind] using hne)]
    simp only [Node.ty, Node.kind, Ty.toStr, Option.getD_some, Prod.mk.injEq,
      Except.error.injEq, TErr.err.injEq, String.append_assoc]
    exact ⟨rfl, trivial⟩

/-- Witness for C9: `1 + 2` types as `Int32` even under an `int8` hint, and
`let x: int8 = 1 + 2` is rejected with a type mismatch. -/
theorem claim_C9_witness :
    visitBinop 4 Op.add (Node.mk (NKind.lit (LitV.uint64 1) none))
        (Node.mk (NKind.lit (LitV.uint64 2) none)) none
        { baseState with hint := some Ty.int8 } =
      (Except.ok (Node.mk (NKind.binop Op.add
        (Node.mk (NKind.lit (LitV.int32 1) (some Ty.int32)))
        (Node.mk (NKind.lit (LitV.int32 2) (some Ty.int32)))
        (some Ty.int32))), { baseState with hint := some Ty.int32 })
    ∧ checkVarInit 7 "x"
        (some (Node.mk (NKind.binop Op.add (Node.mk (NKind.lit (LitV.uint64 1) none))
          (Node.mk (NKind.lit (LitV.uint64 2) none)) none)))
        Ty.int8 ("let statement") baseState =
      (Except.error (TErr.err
        ("Types don't match in let statement. `x` annotated with `int8` but initial value is `int32`")),
        { baseState with hint := some Ty.int32 }) := by
  constructor
  · exact claim_C9_binop_hint_isolation.2.1 0 { baseState with hint := some Ty.int8 } none 1 2
      (by norm_num) (by norm_num)
  · have h := claim_C9_binop_hint_isolation.2.2 0 baseState "x" Ty.int8 rfl (by decide)
    simpa using h

/-! ## Claim C4 -/

/-- A state with a variable `x: Foo`, a struct `Foo` with field `a` and
method `m`, and the pre-registered mangled method symbol `_Foo_m` taking one
`int32` parameter (as the parser would register them). -/
def mselFixture : TychState :=
  ⟨⟨[("x", Symbol.newVar ("x") (Ty.comp "Foo") ("main")),
     ("Foo", Symbol.newStruct ("Foo") (some [("a", "int")]) (some ["m"]) ("main") true),
     ("_Foo_m", Symbol.newFn ("_Foo_m") ("_Foo_m~d:int32~int32") [("d", Ty.int32)]
        Ty.int32 false ("main") false)], []⟩,
   dumpTypes, none, none, "main"⟩

/-- Claim C4 (amended): a method selector whose receiver checks to a
composite type listing the method is checked by delegating to the call logic
under the mangled name `_<Struct>_<method>` with the argument list unchanged
— the receiver is not prepended (that happens in the lowerer) — and the
result is repackaged as an `MSelector` node carrying the call's resolved
name, checked arguments and type; `Err` messages from the delegated check
have every occurrence of the mangled name replaced by `<Struct>.<method>`. -/
theorem claim_C4_mselector_delegation (f : Nat) (comp : Node) (methodName : String)
    (args : List Node) (ty : Option Ty) (σ σ₁ : TychState) (chkdComp : Node)
    (cname : String) (compSym : Symbol) (d : StructData)
    (hcomp : checkNode f comp none σ = (Except.ok chkdComp, σ₁))
    (hty : chkdComp.ty = some (Ty.comp cname))
    (hsym : σ₁.symbolTable.resolveSymbol cname σ₁.module = some compSym)
    (hdata : compSym.data = AssocData.structD d)
    (hm : (d.methods.getD []).contains methodName = true) :
    (∀ e σ₂, visitCall f ("_" ++ compSym.name ++ "_" ++ methodName) args ty σ₁ =
        (Except.error (TErr.err e), σ₂) →
      visitMSelector (f + 1) comp methodName args ty σ =
        (Except.error (TErr.err (e.replace ("_" ++ compSym.name ++ "_" ++ methodName)
          (compSym.name ++ "." ++ methodName))), σ₂))
    ∧ (∀ nm as t σ₂, visitCall f ("_" ++ compSym.name ++ "_" ++ methodName) args ty σ₁ =
        (Except.ok (Node.mk (NKind.call nm as t)), σ₂) →
      visitMSelector (f + 1) comp methodName args ty σ =
        (Except.ok (Node.mk (NKind.mselector chkdComp nm as t)), σ₂)) := by
  have hbody : visitMSelector (f + 1) comp methodName args ty σ =
      (match visitCall f ("_" ++ compSym.name ++ "_" ++ methodName) args ty σ₁ with
        | (Except.error (TErr.err e), σ') =>
          (Except.error (TErr.err
            (e.replace ("_" ++ compSym.name ++ "_" ++ methodName)
              (compSym.name ++ "." ++ methodName))), σ')
        | (Except.error e, σ') => (Except.error e, σ')
        | (Except.ok chkdCall, σ') =>
          match chkdCall.kind with
          | NKind.call nm as t =>
            (Except.ok (Node.mk (NKind.mselector chkdComp nm as t)), σ')
          | _ => (Except.error (TErr.panic ("unknown node kind in `visit_mselector()`")), σ')) := by
    unfold visitMSelector
    rw [hcomp]
    simp only [bindE_ok, getCompositeSymbol, hty, hsym, hdata]
    rw [if_neg (not_not_intro hm)]
  constructor
  · intro e σ₂ hcall
    rw [hbody, hcall]
  · intro nm as t σ₂ hcall
    rw [hbody, hcall]
    rfl

/-- Counterexample to C4 as stated: checking `x.m(2)` (method `m` takes one
parameter) succeeds with the original single-argument list — the receiver is
not prepended, the node stays an `MSelector`, and the one declared parameter
matches the one given argument (under the claim the delegated call would see
two arguments). -/
theorem claim_C4_counterexample :
    visitMSelector 20 (Node.mk (NKind.ident ("x") none)) "m"
        [Node.mk (NKind.lit (LitV.uint64 2) none)] none mselFixture =
      (Except.ok (Node.mk (NKind.mselector
        (Node.mk (NKind.ident ("x") (some (Ty.comp "Foo"))))
        ("_Foo_m~d:int32~int32")
        [Node.mk (NKind.lit (LitV.int32 2) (some Ty.int32))]
        (some Ty.int32))),
       { mselFixture with hint := some Ty.int32 }) := rfl

/-- Witness for C4: the delegation equations at the concrete `x.m(2)`. -/
theorem claim_C4_witness :
    visitMSelector 20 (Node.mk (NKind.ident ("x") none)) "m"
        [Node.mk (NKind.lit (LitV.uint64 2) none)] none mselFixture =
      (Except.ok (Node.mk (NKind.mselector
        (Node.mk (NKind.ident ("x") (some (Ty.comp "Foo"))))
        ("_Foo_m~d:int32~int32")
        [Node.mk (NKind.lit (LitV.int32 2) (some Ty.int32))]
        (some Ty.int32))),
       { mselFixture with hint := some Ty.int32 }) := by
  exact (claim_C4_mselector_delegation 19 (Node.mk (NKind.ident ("x") none)) "m"
      [Node.mk (NKind.lit (LitV.uint64 2) none)] none mselFixture mselFixture
      (Node.mk (NKind.ident ("x") (some (Ty.comp "Foo")))) "Foo"
      (Symbol.newStruct ("Foo") (some [("a", "int")]) (some ["m"]) ("main") true)
      ⟨some [("a", "int")], some ["m"]⟩ rfl rfl rfl rfl rfl).2
    ("_Foo_m~d:int32~int32") [Node.mk (NKind.lit (LitV.int32 2) (some Ty.int32))]
    (some Ty.int32) { mselFixture with hint := some Ty.int32 } rfl

/-! ## Claim C5 -/

theorem bindE_eq_ok {α β : Type} {x : TRes α} {k : α → TychState → TRes β}
    {r : β} {σ' : TychState} (h : bindE x k = (Except.ok r, σ')) :
    ∃ a σm, x = (Except.ok a, σm) ∧ k a σm = (Except.ok r, σ') := by
  rcases x with ⟨rx, σx⟩
  cases rx with
  | error e => simp [bindE] at h
  | ok a => exact ⟨a, σx, rfl, h⟩

@[simp] theorem depth_selfInserted (σ : TychState) : (selfInserted σ).depth = σ.depth := by
  unfold selfInserted
  cases σ.currentStruct <;> simp

theorem visitIdent_state (f : Nat) (name : String) (ty : Option Ty) (σ : TychState) :
    (visitIdent f name ty σ).2 = σ := by
  cases f with
  | zero => rfl
  | succ f =>
    show (match σ.symbolTable.get name with
      | none => (Except.error (TErr.err ("Unknown variable: `" ++ name ++ "`")), σ)
      | some sym =>
        match sym.tyAcc with
        | Except.ok identTy => (Except.ok (Node.mk (NKind.ident name (some identTy))), σ)
        | Except.error e => (Except.error e, σ)).2 = σ
    cases σ.symbolTable.get name with
    | none => rfl
    | some sym =>
      show (match sym.tyAcc with
        | Except.ok identTy => (Except.ok (Node.mk (NKind.ident name (some identTy))), σ)
        | Except.error e => (Except.error e, σ)).2 = σ
      cases sym.tyAcc <;> rfl

theorem visitFnFinish_depth {fnEntry : Symbol} {retTy bodyTy : Ty} {bodyNode : Node}
    {proto2 : Proto} {σ : TychState} {r : Node} {σ' : TychState}
    (h : visitFnFinish fnEntry retTy bodyTy bodyNode proto2 σ = (Except.ok r, σ')) :
    σ'.depth = σ.depth - 1 := by
  unfold visitFnFinish at h
  split at h
  · split at h <;> simp at h
  · simp only [Prod.mk.injEq] at h
    rw [← h.2]
    simp

theorem visitFnMain_depth {fnEntry : Symbol} {retTy bodyTy : Ty} {bodyNode : Node}
    {proto1 : Proto} {σ : TychState} {r : Node} {σ' : TychState}
    (h : visitFnMain fnEntry retTy bodyTy bodyNode proto1 σ = (Except.ok r, σ')) :
    σ'.depth = σ.depth - 1 := by
  unfold visitFnMain at h
  split at h
  · split at h
    · simp at h
    · exact visitFnFinish_depth h
  · exact visitFnFinish_depth h

/-- Depth preservation on `Ok` returns, for every checker function at a given
fuel: a successful visit leaves the symbol-table scope depth as it found
it. -/
structure DepthOk (f : Nat) : Prop where
  cn : ∀ {n hint σ r σ'},
    checkNode f n hint σ = (Except.ok r, σ') → σ'.depth = σ.depth
  vn : ∀ {n σ r σ'},
    visitNode f n σ = (Except.ok r, σ') → σ'.depth = σ.depth
  cvi : ∀ {name init antn caller σ r σ'},
    checkVarInit f name init antn caller σ = (Except.ok r, σ') → σ'.depth = σ.depth
  cla : ∀ {lit tyHint σ r σ'},
    checkLitArray f lit tyHint σ = (Except.ok r, σ') → σ'.depth = σ.depth
  clae : ∀ {ty elems σ r σ'},
    checkLitArrayElems f ty elems σ = (Except.ok r, σ') → σ'.depth = σ.depth
  vfor : ∀ {a b c d e g σ r σ'},
    visitFor f a b c d e g σ = (Except.ok r, σ') → σ'.depth = σ.depth
  vlet : ∀ {name antn init σ r σ'},
    visitLet f name antn init σ = (Except.ok r, σ') → σ'.depth = σ.depth
  vfn : ∀ {proto body σ r σ'},
    visitFn f proto body σ = (Except.ok r, σ') → σ'.depth = σ.depth
  vfnb : ∀ {fnEntry retTy proto body σ r σ'},
    visitFnBody f fnEntry retTy proto body σ = (Except.ok r, σ') → σ'.depth = σ.depth
  vstruct : ∀ {name fields methods σ r σ'},
    visitStruct f name fields methods σ = (Except.ok r, σ') → σ'.depth = σ.depth
  cnl : ∀ {list σ r σ'},
    checkNodeListNone f list σ = (Except.ok r, σ') → σ'.depth = σ.depth
  vlit : ∀ {value ty σ r σ'},
    visitLit f value ty σ = (Except.ok r, σ') → σ'.depth = σ.depth
  vident : ∀ {name ty σ r σ'},
    visitIdent f name ty σ = (Except.ok r, σ') → σ'.depth = σ.depth
  vbinop : ∀ {op lhs rhs ty σ r σ'},
    visitBinop f op lhs rhs ty σ = (Except.ok r, σ') → σ'.depth = σ.depth
  vunop : ∀ {op rhs ty σ r σ'},
    visitUnop f op rhs ty σ = (Except.ok r, σ') → σ'.depth = σ.depth
  vcall : ∀ {name args ty σ r σ'},
    visitCall f name args ty σ = (Except.ok r, σ') → σ'.depth = σ.depth
  cca : ∀ {args tys σ r σ'},
    checkCallArgs f args tys σ = (Except.ok r, σ') → σ'.depth = σ.depth
  vcond : ∀ {c t e ty σ r σ'},
    visitCond f c t e ty σ = (Except.ok r, σ') → σ'.depth = σ.depth
  vblock : ∀ {list ty σ r σ'},
    visitBlock f list ty σ = (Except.ok r, σ') → σ'.depth = σ.depth
  bloop : ∀ {list σ r σ'},
    blockLoop f list σ = (Except.ok r, σ') → σ'.depth = σ.depth
  vindex : ∀ {b i ty σ r σ'},
    visitIndex f b i ty σ = (Except.ok r, σ') → σ'.depth = σ.depth
  vfsel : ∀ {c fld ty σ r σ'},
    visitFSelector f c fld ty σ = (Except.ok r, σ') → σ'.depth = σ.depth
  vmsel : ∀ {c m args ty σ r σ'},
    visitMSelector f c m args ty σ = (Except.ok r, σ') → σ'.depth = σ.depth

theorem depthOk_zero : DepthOk 0 := by
  constructor <;>
    (intros; rename_i h; injection h with h1 h2; exact Except.noConfusion h1)

theorem cn_depth_succ (f : Nat) (ih : DepthOk f) : ∀ {n hint σ r σ'},
    checkNode (f + 1) n hint σ = (Except.ok r, σ') → σ'.depth = σ.depth := by
  intro n hint σ r σ' h
  exact ih.vn (n := n) (σ := { σ with hint := hint }) h

theorem vn_depth_succ (f : Nat) (ih : DepthOk f) : ∀ {n σ r σ'},
    visitNode (f + 1) n σ = (Except.ok r, σ') → σ'.depth = σ.depth := by
  intro n σ r σ' h
  rcases n with ⟨k⟩
  cases k with
  | forKind a b c d e g => exact ih.vfor h
  | letKind a b c => exact ih.vlet h
  | fnKind a b => exact ih.vfn h
  | structKind a b c => exact ih.vstruct h
  | lit a b => exact ih.vlit h
  | ident a b => exact ih.vident h
  | binop a b c d => exact ih.vbinop h
  | unop a b c => exact ih.vunop h
  | call a b c => exact ih.vcall h
  | cond a b c d => exact ih.vcond h
  | block a b => exact ih.vblock h
  | index a b c => exact ih.vindex h
  | fselector a b c => exact ih.vfsel h
  | mselector a b c d => exact ih.vmsel h

theorem cvi_depth_succ (f : Nat) (ih : DepthOk f) : ∀ {name init antn caller σ r σ'},
    checkVarInit (f + 1) name init antn caller σ = (Except.ok r, σ') → σ'.depth = σ.depth := by
  intro name init antn caller σ r σ' h
  cases init with
  | none => injection h with h1 h2; rw [← h2]
  | some i =>
    obtain ⟨cn, σ1, h1, h⟩ := bindE_eq_ok h
    simp only [] at h
    split at h
    · simp at h
    · injection h with _ h2
      rw [← h2, ih.cn h1]

theorem cnl_depth_succ (f : Nat) (ih : DepthOk f) : ∀ {list σ r σ'},
    checkNodeListNone (f + 1) list σ = (Except.ok r, σ') → σ'.depth = σ.depth := by
  intro list σ r σ' h
  cases list with
  | nil => injection h with h1 h2; rw [← h2]
  | cons n rest =>
    obtain ⟨n1, σ1, h1, h⟩ := bindE_eq_ok h
    obtain ⟨rest1, σ2, h2, h⟩ := bindE_eq_ok h
    injection h with _ h3
    rw [← h3, ih.cnl h2, ih.cn h1]

theorem clae_depth_succ (f : Nat) (ih : DepthOk f) : ∀ {ty elems σ r σ'},
    checkLitArrayElems (f + 1) ty elems σ = (Except.ok r, σ') → σ'.depth = σ.depth := by
  intro ty elems σ r σ' h
  cases elems with
  | nil => injection h with h1 h2; rw [← h2]
  | cons el rest =>
    obtain ⟨elN, σ1, h1, h⟩ := bindE_eq_ok h
    simp only [] at h
    split at h
    · simp at h
    · obtain ⟨chkd, σ2, h2, h⟩ := bindE_eq_ok h
      injection h with _ h3
      rw [← h3, ih.clae h2, ih.cn h1]

theorem cca_depth_succ (f : Nat) (ih : DepthOk f) : ∀ {args tys σ r σ'},
    checkCallArgs (f + 1) args tys σ = (Except.ok r, σ') → σ'.depth = σ.depth := by
  intro args tys σ r σ' h
  cases args with
  | nil => injection h with h1 h2; rw [← h2]
  | cons a rest =>
    cases tys with
    | nil => injection h with h1 h2; exact Except.noConfusion h1
    | cons t trest =>
      obtain ⟨c1, σ1, h1, h⟩ := bindE_eq_ok h
      obtain ⟨cs, σ2, h2, h⟩ := bindE_eq_ok h
      injection h with _ h3
      rw [← h3, ih.cca h2, ih.cn h1]

theorem bloop_depth_succ (f : Nat) (ih : DepthOk f) : ∀ {list σ r σ'},
    blockLoop (f + 1) list σ = (Except.ok r, σ') → σ'.depth = σ.depth := by
  intro list σ r σ' h
  cases list with
  | nil => injection h with h1 h2; rw [← h2]
  | cons n rest =>
    obtain ⟨chkd, σ1, h1, h⟩ := bindE_eq_ok h
    obtain ⟨p, σ2, h2, h⟩ := bindE_eq_ok h
    split at h <;> (injection h with _ h3; rw [← h3, ih.bloop h2, ih.cn h1])

theorem vlit_depth_succ (f : Nat) (ih : DepthOk f) : ∀ {value ty σ r σ'},
    visitLit (f + 1) value ty σ = (Except.ok r, σ') → σ'.depth = σ.depth := by
  intro value ty σ r σ' h
  cases value <;>
    first
    | (injection h with h1 h2; rw [← h2])
    | (obtain ⟨p, σ1, h1, h⟩ := bindE_eq_ok h
       injection h with _ h2
       rw [← h2, ih.cla h1])

theorem vident_depth_succ (f : Nat) : ∀ {name ty σ r σ'},
    visitIdent (f + 1) name ty σ = (Except.ok r, σ') → σ'.depth = σ.depth := by
  intro name ty σ r σ' h
  have hs := visitIdent_state (f + 1) name ty σ
  rw [h] at hs
  simp at hs
  rw [hs]

theorem vunop_depth_succ (f : Nat) (ih : DepthOk f) : ∀ {op rhs ty σ r σ'},
    visitUnop (f + 1) op rhs ty σ = (Except.ok r, σ') → σ'.depth = σ.depth := by
  intro op rhs ty σ r σ' h
  obtain ⟨chkd, σ1, h1, h⟩ := bindE_eq_ok h
  try simp only [] at h
  split at h
  · injection h with _ h2
    rw [← h2, ih.cn h1]
  · simp at h

theorem vbinop_depth_succ (f : Nat) (ih : DepthOk f) : ∀ {op lhs rhs ty σ r σ'},
    visitBinop (f + 1) op lhs rhs ty σ = (Except.ok r, σ') → σ'.depth = σ.depth := by
  intro op lhs rhs ty σ r σ' h
  unfold visitBinop at h
  split at h
  · simp at h
  · split at h <;>
      (obtain ⟨c1, σ1, h1, h⟩ := bindE_eq_ok h
       try try simp only [] at h
       obtain ⟨c2, σ2, h2, h⟩ := bindE_eq_ok h
       try try simp only [] at h
       split at h
       · simp at h
       · injection h with _ h3
         rw [← h3, ih.cn h2, ih.cn h1])

theorem vindex_depth_succ (f : Nat) (ih : DepthOk f) : ∀ {b i ty σ r σ'},
    visitIndex (f + 1) b i ty σ = (Except.ok r, σ') → σ'.depth = σ.depth := by
  intro b i ty σ r σ' h
  obtain ⟨chkd, σ1, h1, h⟩ := bindE_eq_ok h
  split at h
  · obtain ⟨ci, σ2, h2, h⟩ := bindE_eq_ok h
    try simp only [] at h
    split at h
    · simp at h
    · split at h
      · simp at h
      · injection h with _ h3
        rw [← h3, ih.cn h2, ih.cn h1]
  · simp at h

theorem vcond_depth_succ (f : Nat) (ih : DepthOk f) : ∀ {c t e ty σ r σ'},
    visitCond (f + 1) c t e ty σ = (Except.ok r, σ') → σ'.depth = σ.depth := by
  intro c t e ty σ r σ' h
  obtain ⟨cc, σ1, h1, h⟩ := bindE_eq_ok h
  try simp only [] at h
  split at h
  · simp at h
  · obtain ⟨ct, σ2, h2, h⟩ := bindE_eq_ok h
    try simp only [] at h
    cases e with
    | none =>
      injection h with _ h3
      rw [← h3, ih.cn h2, ih.cn h1]
    | some eb =>
      obtain ⟨ce, σ3, h3, h⟩ := bindE_eq_ok h
      try simp only [] at h
      split at h
      · simp at h
      · injection h with _ h4
        rw [← h4, ih.cn h3, ih.cn h2, ih.cn h1]

theorem vblock_depth_succ (f : Nat) (ih : DepthOk f) : ∀ {list ty σ r σ'},
    visitBlock (f + 1) list ty σ = (Except.ok r, σ') → σ'.depth = σ.depth := by
  intro list ty σ r σ' h
  obtain ⟨p, σ1, h1, h⟩ := bindE_eq_ok h
  injection h with _ h2
  have hd := ih.bloop h1
  rw [← h2]
  simp only [depth_leave, hd, depth_enter]
  omega

theorem cla_array_depth (f : Nat) (ih : DepthOk f)
    {elements : List Node} {innerTy : Option Ty} {tyHint : Option Ty}
    {σ : TychState} {r : LitV × Ty} {σ' : TychState}
    (h : checkLitArray (f + 1) (LitV.array elements innerTy) tyHint σ = (Except.ok r, σ')) :
    σ'.depth = σ.depth := by
  cases tyHint with
  | none => injection h with h1 h2; exact Except.noConfusion h1
  | some hintTy =>
    cases hintTy <;>
      first
      | (injection h with h1 h2; exact Except.noConfusion h1)
      | (rename_i inner size
         rw [show checkLitArray (f + 1) (LitV.array elements innerTy)
              (some (Ty.sarray inner size)) σ =
            (if elements.length % 4294967296 > size then
              (Except.error (TErr.err
                ("SArray literal too big in assignment: `" ++ toString elements.length
                  ++ "` > `" ++ toString size ++ "`")), σ)
            else
              bindE (checkLitArrayElems f inner elements σ) fun chkdElements σ =>
              (Except.ok (LitV.array chkdElements (some inner), Ty.sarray inner size), σ))
            from rfl] at h
         split at h
         · simp at h
         · obtain ⟨chkd, σ1, h1, h⟩ := bindE_eq_ok h
           injection h with _ h2
           rw [← h2, ih.clae h1])

theorem cla_depth_succ (f : Nat) (ih : DepthOk f) : ∀ {lit tyHint σ r σ'},
    checkLitArray (f + 1) lit tyHint σ = (Except.ok r, σ') → σ'.depth = σ.depth := by
  intro lit tyHint σ r σ' h
  cases lit <;>
    first
    | (injection h with h1 h2; exact Except.noConfusion h1)
    | exact cla_array_depth f ih h

theorem vfor_depth_succ (f : Nat) (ih : DepthOk f) : ∀ {a b c d e g σ r σ'},
    visitFor (f + 1) a b c d e g σ = (Except.ok r, σ') → σ'.depth = σ.depth := by
  intro a b c d e g σ r σ' h
  obtain ⟨se, σ1, h1, h⟩ := bindE_eq_ok h
  split at h
  · simp at h
  · obtain ⟨c1, σ2, h2, h⟩ := bindE_eq_ok h
    try simp only [] at h
    split at h
    · simp at h
    · obtain ⟨s1, σ3, h3, h⟩ := bindE_eq_ok h
      try simp only [] at h
      split at h
      · simp at h
      · obtain ⟨b1, σ4, h4, h⟩ := bindE_eq_ok h
        injection h with _ h5
        have d1 := ih.cvi h1
        have d2 := ih.cn h2
        have d3 := ih.cn h3
        have d4 := ih.cn h4
        rw [← h5]
        simp only [depth_leave, depth_insertSym, depth_enter] at *
        omega

theorem vlet_depth_succ (f : Nat) (ih : DepthOk f) : ∀ {name antn init σ r σ'},
    visitLet (f + 1) name antn init σ = (Except.ok r, σ') → σ'.depth = σ.depth := by
  intro name antn init σ r σ' h
  unfold visitLet at h
  split at h
  · simp at h
  · split at h
    · obtain ⟨i1, σ1, h1, h⟩ := bindE_eq_ok h
      injection h with _ h2
      have d1 := ih.cvi h1
      rw [← h2]
      simp only [depth_insertSym] at *
      exact d1
    · split at h
      · simp at h
      · injection h with _ h2
        rw [← h2]

theorem vfn_depth_succ (f : Nat) (ih : DepthOk f) : ∀ {proto body σ r σ'},
    visitFn (f + 1) proto body σ = (Except.ok r, σ') → σ'.depth = σ.depth := by
  intro proto body σ r σ' h
  unfold visitFn at h
  split at h
  · simp at h
  · split at h
    · simp at h
    · cases body with
      | none => injection h with _ h2; rw [← h2]
      | some b => exact ih.vfnb h

theorem vfnb_depth_succ (f : Nat) (ih : DepthOk f) : ∀ {fnEntry retTy proto body σ r σ'},
    visitFnBody (f + 1) fnEntry retTy proto body σ = (Except.ok r, σ') → σ'.depth = σ.depth := by
  intro fnEntry retTy proto body σ r σ' h
  unfold visitFnBody at h
  split at h
  · simp at h
  · rename_i resolvedArgs σ2 hargs
    obtain ⟨bn, σ3, h3, h⟩ := bindE_eq_ok h
    have dm := visitFnMain_depth h
    have da := visitFnArgs_depth proto.name proto.args (selfInserted σ.enter)
    rw [hargs] at da
    have d3 := ih.cn h3
    simp only [depth_selfInserted, depth_enter] at da
    simp only [dm, d3, da]
    omega

theorem vstruct_depth_succ (f : Nat) (ih : DepthOk f) : ∀ {name fields methods σ r σ'},
    visitStruct (f + 1) name fields methods σ = (Except.ok r, σ') → σ'.depth = σ.depth := by
  intro name fields methods σ r σ' h
  unfold visitStruct at h
  split at h
  · simp at h
  · obtain ⟨cf, σ1, h1, h⟩ := bindE_eq_ok h
    obtain ⟨cm, σ2, h2, h⟩ := bindE_eq_ok h
    try simp only [] at h
    split at h
    · simp at h
    · split at h
      · split at h
        · simp at h
        · injection h with _ h3
          have d1 := ih.cnl h1
          have d2 := ih.cnl h2
          rw [← h3]
          simp only [depth_insertSym, depth_withStruct] at *
          omega
      · simp at h

theorem vcall_depth_succ (f : Nat) (ih : DepthOk f) : ∀ {name args ty σ r σ'},
    visitCall (f + 1) name args ty σ = (Except.ok r, σ') → σ'.depth = σ.depth := by
  intro name args ty σ r σ' h
  unfold visitCall at h
  split at h
  · simp at h
  · split at h
    · simp at h
    · split at h
      · split at h
        · try simp only [] at h
          split at h <;> simp at h
        · try simp only [] at h
          split at h <;>
            first
            | simp at h
            | (obtain ⟨ca, σ1, h1, h⟩ := bindE_eq_ok h
               split at h
               · simp at h
               · injection h with _ h2
                 rw [← h2, ih.cca h1])
      · simp at h

theorem vfsel_depth_succ (f : Nat) (ih : DepthOk f) : ∀ {c fld ty σ r σ'},
    visitFSelector (f + 1) c fld ty σ = (Except.ok r, σ') → σ'.depth = σ.depth := by
  intro c fld ty σ r σ' h
  obtain ⟨c1, σ1, h1, h⟩ := bindE_eq_ok h
  split at h
  · simp at h
  · split at h
    · split at h
      · simp at h
      · split at h
        · simp at h
        · injection h with _ h2
          rw [← h2, ih.cn h1]
    · simp at h

theorem vmsel_depth_succ (f : Nat) (ih : DepthOk f) : ∀ {c m args ty σ r σ'},
    visitMSelector (f + 1) c m args ty σ = (Except.ok r, σ') → σ'.depth = σ.depth := by
  intro c m args ty σ r σ' h
  obtain ⟨c1, σ1, h1, h⟩ := bindE_eq_ok h
  split at h
  · simp at h
  · split at h
    · split at h
      · simp at h
      · try simp only [] at h
        split at h
        · simp at h
        · simp at h
        · rename_i chkdCall σv heqc
          split at h
          · injection h with _ h2
            rw [← h2, ih.vcall heqc, ih.cn h1]
          · simp at h
    · simp at h

theorem depthOk_succ (f : Nat) (ih : DepthOk f) : DepthOk (f + 1) :=
  ⟨cn_depth_succ f ih, vn_depth_succ f ih, cvi_depth_succ f ih, cla_depth_succ f ih,
   clae_depth_succ f ih, vfor_depth_succ f ih, vlet_depth_succ f ih, vfn_depth_succ f ih,
   vfnb_depth_succ f ih, vstruct_depth_succ f ih, cnl_depth_succ f ih, vlit_depth_succ f ih,
   vident_depth_succ f, vbinop_depth_succ f ih, vunop_depth_succ f ih, vcall_depth_succ f ih,
   cca_depth_succ f ih, vcond_depth_succ f ih, vblock_depth_succ f ih, bloop_depth_succ f ih,
   vindex_depth_succ f ih, vfsel_depth_succ f ih, vmsel_depth_succ f ih⟩

theorem depthOk_all : ∀ f, DepthOk f := by
  intro f
  induction f with
  | zero => exact depthOk_zero
  | succ f ih => exact depthOk_succ f ih

/-- Claim C5 (amended): a visit of a for loop, a function, or a block that
returns `Ok` restores the symbol-table scope depth it found; a visit that
returns `Err` may leave entered scopes on the stack (the caller discards the
table — see the counterexample). -/
theorem claim_C5_scope_balance :
    (∀ (f : Nat) (a : String) (b : Ty) (c : Option Node) (d e g : Node)
        (σ : TychState) (r : Node) (σ' : TychState),
      visitFor f a b c d e g σ = (Except.ok r, σ') → σ'.depth = σ.depth)
    ∧ (∀ (f : Nat) (proto : Proto) (body : Option Node) (σ : TychState) (r : Node)
        (σ' : TychState),
      visitFn f proto body σ = (Except.ok r, σ') → σ'.depth = σ.depth)
    ∧ (∀ (f : Nat) (list : List Node) (ty : Option Ty) (σ : TychState) (r : Node)
        (σ' : TychState),
      visitBlock f list ty σ = (Except.ok r, σ') → σ'.depth = σ.depth) :=
  ⟨fun f _ _ _ _ _ _ _ _ _ h => (depthOk_all f).vfor h,
   fun f _ _ _ _ _ h => (depthOk_all f).vfn h,
   fun f _ _ _ _ _ h => (depthOk_all f).vblock h⟩

/-- Counterexample to C5 as stated: a for loop whose condition is not a bool
returns `Err` with the entered scope still on the stack — the depth after
the visit is one more than before. -/
theorem claim_C5_counterexample :
    (visitFor 20 "i" Ty.int32 none (Node.mk (NKind.lit (LitV.uint64 0) none))
        (Node.mk (NKind.lit (LitV.uint64 1) none)) (Node.mk (NKind.block [] none))
        baseState).1 =
      Except.error (TErr.err ("For loop conditional should always be a bool"))
    ∧ (visitFor 20 "i" Ty.int32 none (Node.mk (NKind.lit (LitV.uint64 0) none))
        (Node.mk (NKind.lit (LitV.uint64 1) none)) (Node.mk (NKind.block [] none))
        baseState).2.depth = baseState.depth + 1 := ⟨rfl, rfl⟩

/-- Witness for C5: a successful for-loop visit at depth 0 returns at
depth 0. -/
theorem claim_C5_witness :
    (visitFor 20 "i" Ty.int32 none
        (Node.mk (NKind.binop Op.lt (Node.mk (NKind.ident ("i") none))
          (Node.mk (NKind.lit (LitV.uint64 5) none)) none))
        (Node.mk (NKind.lit (LitV.uint64 1) none)) (Node.mk (NKind.block [] none))
        baseState).2.depth = baseState.depth := by
  have h := claim_C5_scope_balance.1 20 "i" Ty.int32 none
    (Node.mk (NKind.binop Op.lt (Node.mk (NKind.ident ("i") none))
      (Node.mk (NKind.lit (LitV.uint64 5) none)) none))
    (Node.mk (NKind.lit (LitV.uint64 1) none)) (Node.mk (NKind.block [] none))
    baseState
    (Node.mk (NKind.forKind "i" Ty.int32 none
      (Node.mk (NKind.binop Op.lt (Node.mk (NKind.ident ("i") (some Ty.int32)))
        (Node.mk (NKind.lit (LitV.int32 5) (some Ty.int32))) (some Ty.bool)))
      (Node.mk (NKind.lit (LitV.int32 1) (some Ty.int32)))
      (Node.mk (NKind.block [] (some Ty.void)))))
    ((visitFor 20 "i" Ty.int32 none
        (Node.mk (NKind.binop Op.lt (Node.mk (NKind.ident ("i") none))
          (Node.mk (NKind.lit (LitV.uint64 5) none)) none))
        (Node.mk (NKind.lit (LitV.uint64 1) none)) (Node.mk (NKind.block [] none))
        baseState).2) rfl
  exact h

/-! ## Claim C10 -/

/-- Claim C10: lexing the empty source string returns `Ok` with an empty
token list and no synthetic semicolon — but only under wrap-around `usize`
semantics: the very first `StreamIter::next` call evaluates
`self.column - 1` with `column = 0`, an arithmetic underflow (recorded by
the model's sticky flag; a panic in a Rust debug build). -/
theorem claim_C10_empty_input_underflow :
    Lex.scan 10 (Lex.new "") =
      Except.ok ([], ⟨⟨⟨[], 0, 0, true⟩, none⟩, []⟩)
    ∧ (⟨⟨⟨[], 0, 0, true⟩, none⟩, []⟩ : LexState).stream.iter.underflow = true := by
  constructor
  · rfl
  · rfl

/-! ## Claim C2 -/

/-- The semicolon-inference token set (spec section 4.1): identifier,
numeric/char/bool literal, closing brace/paren/bracket, postfix `++`/`--`. -/
def inferenceSet (tt : TokenType) : Bool :=
  match tt with
  | TokenType.bool _ => true
  | TokenType.char _ => true
  | TokenType.closeBrace => true
  | TokenType.closeParen => true
  | TokenType.closeBracket => true
  | TokenType.ident _ => true
  | TokenType.num _ => true
  | TokenType.op Op.inc => true
  | TokenType.op Op.dec => true
  | _ => false

theorem shouldAdd_eq (tokens : List Token) :
    shouldAddSemicolon tokens =
      (match tokens.getLast? with
        | some t => inferenceSet t.tt
        | none => false) := rfl

theorem shouldAdd_getLast {tokens : List Token}
    (h : shouldAddSemicolon tokens = true) :
    ∃ p, tokens.getLast? = some p ∧ inferenceSet p.tt = true := by
  rw [shouldAdd_eq] at h
  cases hl : tokens.getLast? with
  | none => rw [hl] at h; cases h
  | some p => rw [hl] at h; exact ⟨p, rfl, h⟩

theorem keywordToken_ne_semi (s : String) : keywordToken s ≠ TokenType.semicolon true := by
  intro h
  unfold keywordToken at h
  rw [ite_eq_iff] at h
  rcases h with ⟨-, h⟩ | ⟨-, h⟩
  · exact TokenType.noConfusion h
  rw [ite_eq_iff] at h
  rcases h with ⟨-, h⟩ | ⟨-, h⟩
  · exact TokenType.noConfusion h
  rw [ite_eq_iff] at h
  rcases h with ⟨-, h⟩ | ⟨-, h⟩
  · exact TokenType.noConfusion h
  rw [ite_eq_iff] at h
  rcases h with ⟨-, h⟩ | ⟨-, h⟩
  · exact TokenType.noConfusion h
  rw [ite_eq_iff] at h
  rcases h with ⟨-, h⟩ | ⟨-, h⟩
  · exact TokenType.noConfusion h
  rw [ite_eq_iff] at h
  rcases h with ⟨-, h⟩ | ⟨-, h⟩
  · exact TokenType.noConfusion h
  rw [ite_eq_iff] at h
  rcases h with ⟨-, h⟩ | ⟨-, h⟩
  · exact TokenType.noConfusion h
  rw [ite_eq_iff] at h
  rcases h with ⟨-, h⟩ | ⟨-, h⟩
  · exact TokenType.noConfusion h
  rw [ite_eq_iff] at h
  rcases h with ⟨-, h⟩ | ⟨-, h⟩
  · exact TokenType.noConfusion h
  rw [ite_eq_iff] at h
  rcases h with ⟨-, h⟩ | ⟨-, h⟩
  · exact TokenType.noConfusion h
  exact TokenType.noConfusion h

theorem oneCharToken_ne_semiTrue {c : Char} {tt : TokenType}
    (h : oneCharToken c = some tt) : tt ≠ TokenType.semicolon true := by
  unfold oneCharToken at h
  rw [ite_eq_iff] at h
  rcases h with ⟨-, h⟩ | ⟨-, h⟩
  · injection h with h; subst h; decide
  rw [ite_eq_iff] at h
  rcases h with ⟨-, h⟩ | ⟨-, h⟩
  · injection h with h; subst h; decide
  rw [ite_eq_iff] at h
  rcases h with ⟨-, h⟩ | ⟨-, h⟩
  · injection h with h; subst h; decide
  rw [ite_eq_iff] at h
  rcases h with ⟨-, h⟩ | ⟨-, h⟩
  · injection h with h; subst h; decide
  rw [ite_eq_iff] at h
  rcases h with ⟨-, h⟩ | ⟨-, h⟩
  · injection h with h; subst h; decide
  rw [ite_eq_iff] at h
  rcases h with ⟨-, h⟩ | ⟨-, h⟩
  · injection h with h; subst h; decide
  rw [ite_eq_iff] at h
  rcases h with ⟨-, h⟩ | ⟨-, h⟩
  · injection h with h; subst h; decide
  rw [ite_eq_iff] at h
  rcases h with ⟨-, h⟩ | ⟨-, h⟩
  · injection h with h; subst h; decide
  rw [ite_eq_iff] at h
  rcases h with ⟨-, h⟩ | ⟨-, h⟩
  · injection h with h; subst h; decide
  rw [ite_eq_iff] at h
  rcases h with ⟨-, h⟩ | ⟨-, h⟩
  · injection h with h; subst h; decide
  rw [ite_eq_iff] at h
  rcases h with ⟨-, h⟩ | ⟨-, h⟩
  · injection h with h; subst h; decide
  rw [ite_eq_iff] at h
  rcases h with ⟨-, h⟩ | ⟨-, h⟩
  · injection h with h; subst h; decide
  rw [ite_eq_iff] at h
  rcases h with ⟨-, h⟩ | ⟨-, h⟩
  · injection h with h; subst h; decide
  rw [ite_eq_iff] at h
  rcases h with ⟨-, h⟩ | ⟨-, h⟩
  · injection h with h; subst h; decide
  rw [ite_eq_iff] at h
  rcases h with ⟨-, h⟩ | ⟨-, h⟩
  · injection h with h; subst h; decide
  rw [ite_eq_iff] at h
  rcases h with ⟨-, h⟩ | ⟨-, h⟩
  · injection h with h; subst h; decide
  rw [ite_eq_iff] at h
  rcases h with ⟨-, h⟩ | ⟨-, h⟩
  · injection h with h; subst h; decide
  rw [ite_eq_iff] at h
  rcases h with ⟨-, h⟩ | ⟨-, h⟩
  · injection h with h; subst h; decide
  rw [ite_eq_iff] at h
  rcases h with ⟨-, h⟩ | ⟨-, h⟩
  · injection h with h; subst h; decide
  rw [ite_eq_iff] at h
  rcases h with ⟨-, h⟩ | ⟨-, h⟩
  · injection h with h; subst h; decide
  rw [ite_eq_iff] at h
  rcases h with ⟨-, h⟩ | ⟨-, h⟩
  · injection h with h; subst h; decide
  exact Option.noConfusion h

theorem lexOther_ok_tt {f : Nat} {cur : CtxElem} {stPk : PStream} {pk : CtxElem}
    {tok : Token} {st' : PStream}
    (h : lexOther f cur stPk pk = Except.ok (tok, st')) :
    tok.tt ≠ TokenType.semicolon true := by
  unfold lexOther at h
  split_ifs at h
  · split at h
    · simp at h
    · injection h with h; injection h with h1 _
      rw [← h1]
      exact keywordToken_ne_semi _
  · split at h
    · simp at h
    · injection h with h; injection h with h1 _
      rw [← h1]
      simp
  · split at h
    · simp at h
    · injection h with h; injection h with h1 _
      rw [← h1]
      simp
  · split at h
    · injection h with h; injection h with h1 _
      rw [← h1]
      simp
    · split at h
      · rename_i tt2 heq
        injection h with h; injection h with h1 _
        rw [← h1]
        exact oneCharToken_ne_semiTrue heq
      · simp at h

/-- The token/state relation an `Ok` return of `Lex::lex` satisfies: either
the accumulated token list is untouched and a returned synthetic semicolon
was guarded by `should_add_semicolon`, or (at EOF) a guarded synthetic
semicolon was pushed onto the list. -/
def LexTokProp (σ : LexState) (t : Token) (σ' : LexState) : Prop :=
  (σ'.tokens = σ.tokens ∧ (t.tt = TokenType.semicolon true → shouldAddSemicolon σ.tokens = true))
  ∨ (shouldAddSemicolon σ.tokens = true ∧ t.tt = TokenType.eof ∧
     ∃ tok, σ'.tokens = σ.tokens ++ [tok] ∧ tok.tt = TokenType.semicolon true)

structure LexOk (f : Nat) : Prop where
  lex : ∀ {σ t σ'}, Lex.lex f σ = Except.ok (t, σ') → LexTokProp σ t σ'
  ws : ∀ {σ t σ'}, Lex.wsSkip f σ = Except.ok (t, σ') → LexTokProp σ t σ'
  com : ∀ {σ t σ'}, Lex.commentSkip f σ = Except.ok (t, σ') → LexTokProp σ t σ'

theorem lexOk_zero : LexOk 0 := by
  constructor <;> (intros σ t σ' h; exact Except.noConfusion h)

theorem lexOk_succ (f : Nat) (ih : LexOk f) : LexOk (f + 1) := by
  refine ⟨?_, ?_, ?_⟩
  · intro σ t σ' h
    unfold Lex.lex at h
    rcases hn : σ.stream.next with ⟨cur, st⟩
    rw [hn] at h
    try simp only [] at h
    split at h
    · -- newline synthetic semicolon
      rename_i hcond
      injection h with h; injection h with h1 h2
      rw [← h2]
      refine Or.inl ⟨rfl, fun _ => ?_⟩
      simpa using (Bool.and_eq_true_iff.mp hcond).2
    · split at h
      · -- EOF
        split at h
        · rename_i hguard
          injection h with h; injection h with h1 h2
          obtain ⟨p, hp, -⟩ := shouldAdd_getLast hguard
          rw [← h1, ← h2, hp]
          exact Or.inr ⟨hguard, rfl, _, rfl, rfl⟩
        · rename_i hguard
          injection h with h; injection h with h1 h2
          rw [← h1, ← h2]
          exact Or.inl ⟨rfl, by simp⟩
      · split at h
        · have hh := ih.ws h; exact hh
        · split at h
          · have hh := ih.com h; exact hh
          · split at h
            · simp at h
            · rename_i p tok st2 heq
              injection h with h; injection h with h1 h2
              rw [← h1, ← h2]
              exact Or.inl ⟨rfl, fun hsemi => absurd hsemi (lexOther_ok_tt heq)⟩
  · intro σ t σ' h
    unfold Lex.wsSkip at h
    rcases hp : σ.stream.peek with ⟨c, st⟩
    rw [hp] at h
    try simp only [] at h
    split at h
    · have hh := ih.lex h; exact hh
    · split at h
      · have hh := ih.lex h; exact hh
      · have hh := ih.ws h; exact hh
  · intro σ t σ' h
    unfold Lex.commentSkip at h
    rcases hnx : σ.stream.next with ⟨c, st⟩
    rw [hnx] at h
    try simp only [] at h
    split at h
    · have hh := ih.lex h; exact hh
    · split at h
      · have hh := ih.lex h; exact hh
      · have hh := ih.com h; exact hh

theorem lexOk_all : ∀ f, LexOk f := by
  intro f
  induction f with
  | zero => exact lexOk_zero
  | succ f ih => exact lexOk_succ f ih


/-- Every synthetic `Semicolon(true)` in a token list is immediately preceded
by a token from the semicolon-inference set. -/
def semiInv (ts : List Token) : Prop :=
  ∀ i t, ts[i]? = some t → t.tt = TokenType.semicolon true →
    ∃ j p, i = j + 1 ∧ ts[j]? = some p ∧ inferenceSet p.tt = true

theorem semiInv_append {ts : List Token} {tk : Token}
    (h : semiInv ts)
    (hnew : tk.tt = TokenType.semicolon true →
      ∃ p, ts.getLast? = some p ∧ inferenceSet p.tt = true) :
    semiInv (ts ++ [tk]) := by
  intro i t hget hsemi
  by_cases hi : i < ts.length
  · rw [List.getElem?_append_left hi] at hget
    obtain ⟨j, p, hij, hjp, hset⟩ := h i t hget hsemi
    exact ⟨j, p, hij, by rw [List.getElem?_append_left (by omega)]; exact hjp, hset⟩
  · have hlen : i < ts.length + 1 := by
      have := List.getElem?_eq_some.mp hget
      simpa using this.1
    have hieq : i = ts.length := by omega
    subst hieq
    rw [List.getElem?_concat_length] at hget
    injection hget with hget
    subst hget
    obtain ⟨p, hp, hpset⟩ := hnew hsemi
    have hne : ts ≠ [] := by
      intro hnil; rw [hnil] at hp; exact Option.noConfusion hp
    have hlpos : 0 < ts.length := List.length_pos.mpr hne
    refine ⟨ts.length - 1, p, by omega, ?_, hpset⟩
    rw [List.getElem?_append_left (by omega)]
    rw [List.getLast?_eq_getElem?] at hp
    exact hp

theorem scan_semiInv :
    ∀ f σ toks σf, Lex.scan f σ = Except.ok (toks, σf) →
      semiInv σ.tokens → semiInv toks := by
  intro f
  induction f with
  | zero => intro σ toks σf h _; exact Except.noConfusion h
  | succ f ih =>
    intro σ toks σf h hinv
    unfold Lex.scan at h
    split at h
    · exact Except.noConfusion h
    · rename_i t σ1 heq
      split at h
      · injection h with h; injection h with h1 h2
        rcases (lexOk_all f).lex heq with ⟨hts, -⟩ | ⟨hguard, -, tok, hts, hsemi⟩
        · rw [← h1, hts]; exact hinv
        · rw [← h1, hts]
          exact semiInv_append hinv (fun _ => shouldAdd_getLast hguard)
      · rename_i hneof
        rcases (lexOk_all f).lex heq with ⟨hts, himp⟩ | ⟨-, hteof, -⟩
        · have hpre : semiInv (σ1.tokens ++ [t]) := by
            refine semiInv_append ?_ ?_
            · rw [hts]; exact hinv
            · intro hsemi
              rw [hts]
              exact shouldAdd_getLast (himp hsemi)
          exact ih _ toks σf h hpre
        · exact absurd (by simp [Token.isEof, hteof]) hneof

/-- C2 (corrected): for every source string that lexes successfully, every
synthetic `Semicolon(true)` in the output token list is immediately preceded
by a token of the inference set (identifier, numeric/char/bool literal,
closing brace/paren/bracket, postfix `++`/`--`).  The spec's stronger claim
that a semicolon is emitted whenever a newline follows such a token is false:
the whitespace and comment loops consume newlines without the semicolon
check (see the counterexample). -/
theorem claim_C2_semicolon_inference (s : String) (f : Nat)
    (toks : List Token) (σf : LexState)
    (h : Lex.scan f (Lex.new s) = Except.ok (toks, σf)) :
    semiInv toks := by
  refine scan_semiInv f (Lex.new s) toks σf h ?_
  intro i t hget _
  simp [Lex.new] at hget

/-- C2 counterexample to the spec's "exactly when" direction: in `"a \nb"`
a newline follows the identifier token `a` (separated only by a space), yet
no synthetic semicolon is emitted between `a` and `b`: the whitespace loop
consumed the newline without running the semicolon check.  The only
`Semicolon(true)` is the EOF-synthesised one after `b`. -/
theorem claim_C2_counterexample :
    (Lex.scan 50 (Lex.new "a \nb")).map Prod.fst =
      Except.ok [⟨TokenType.ident "a", 1, 1⟩, ⟨TokenType.ident "b", 2, 1⟩,
                 ⟨TokenType.semicolon true, 2, 2⟩] := rfl

/-- C2 witness: the amended invariant instantiated on the concrete
program `"a\n"`. -/
theorem claim_C2_witness :
    Lex.scan 50 (Lex.new "a\n") =
      Except.ok ([⟨TokenType.ident "a", 1, 1⟩, ⟨TokenType.semicolon true, 1, 2⟩],
        ⟨⟨⟨[['a', '\n']], 1, 1, false⟩, none⟩,
         [⟨TokenType.ident "a", 1, 1⟩, ⟨TokenType.semicolon true, 1, 2⟩]⟩) ∧
    semiInv [⟨TokenType.ident "a", 1, 1⟩, ⟨TokenType.semicolon true, 1, 2⟩] :=
  ⟨rfl, claim_C2_semicolon_inference "a\n" 50
    [⟨TokenType.ident "a", 1, 1⟩, ⟨TokenType.semicolon true, 1, 2⟩]
    ⟨⟨⟨[['a', '\n']], 1, 1, false⟩, none⟩,
     [⟨TokenType.ident "a", 1, 1⟩, ⟨TokenType.semicolon true, 1, 2⟩]⟩ rfl⟩

end Light
